import Mathlib

set_option maxHeartbeats 1600000

/-!
Verification development for the minion-comms coordination kernel
(`src/minion_comms/server.py`).  The SQLite-backed state is embedded as a
record of lists (one list per table, kept in rowid/insertion order); each
MCP tool becomes a pure function `DB → DB × Outcome`, with the wall clock,
file-system existence checks and path normalisation passed in explicitly.
Timestamps are natural numbers (the code stores ISO strings and compares
them chronologically).
-/

namespace MinionComms

/-! ### String helpers (case-insensitive substring scan, CSV splitting) -/

/-- Lower-case every character, as Python's `str.lower` used in `_scan_triggers`. -/
def lower_str (s : String) : String := String.mk (s.data.map Char.toLower)

/-- `chars_lead_with p c` is true when `p` is an initial segment of `c`. -/
def chars_lead_with : List Char → List Char → Bool
  | [], _ => true
  | _ :: _, [] => false
  | p :: ps, c :: cs => p == c && chars_lead_with ps cs

/-- `chars_have_sub p c` is true when `p` occurs contiguously inside `c`. -/
def chars_have_sub (pat : List Char) : List Char → Bool
  | [] => chars_lead_with pat []
  | c :: cs => chars_lead_with pat (c :: cs) || chars_have_sub pat cs

/-- Python's `pat in hay` substring test. -/
def str_has_sub (hay pat : String) : Bool := chars_have_sub pat.data hay.data

/-- Python's `hay.startswith(pat)` / SQL `LIKE 'pat%'`. -/
def str_starts (hay pat : String) : Bool := chars_lead_with pat.data hay.data

/-- `str.split(sep)` on character lists (`"".split(",") == [""]`). -/
def split_chars (sep : Char) : List Char → List (List Char)
  | [] => [[]]
  | c :: cs =>
    let r := split_chars sep cs
    if c == sep then [] :: r
    else
      match r with
      | [] => [[c]]
      | h :: t => (c :: h) :: t

/-- Drop leading whitespace. -/
def drop_space : List Char → List Char
  | [] => []
  | c :: cs => if c.isWhitespace then drop_space cs else c :: cs

/-- Python's `str.strip()`. -/
def trim_str (s : String) : String :=
  String.mk ((drop_space ((drop_space s.data).reverse)).reverse)

/-- Python's `[x.strip() for x in s.split(",") if x.strip()]`. -/
def split_csv (s : String) : List String :=
  ((split_chars ',' s.data).map (fun cs => trim_str (String.mk cs))).filter (fun a => a != "")

/-- Python's `int(raw)` restricted to unsigned digit strings, as `None` on
anything else (a non-numeric id is rejected either way). -/
def parse_nat (s : String) : Option Nat :=
  if s.data.isEmpty then none
  else if s.data.all (fun c => c.isDigit) then
    some (s.data.foldl (fun acc c => acc * 10 + (c.toNat - 48)) 0)
  else none

/-! ### Fixed policy tables from the top of `server.py` -/

def VALID_CLASSES : List String := ["lead", "coder", "builder", "oracle", "recon"]

def BATTLE_PLAN_STATUSES : List String :=
  ["active", "superseded", "completed", "abandoned", "obsolete"]

def RAID_LOG_PRIORITIES : List String := ["low", "normal", "high", "critical"]

def TASK_STATUSES : List String :=
  ["open", "assigned", "in_progress", "fixed", "verified",
   "closed", "abandoned", "stale", "obsolete"]

/-- `CLASS_MODEL_WHITELIST.get(cls, set())`: models allowed per class, empty = any. -/
def CLASS_MODEL_WHITELIST (cls : String) : List String :=
  if cls == "lead" || cls == "coder" then
    ["claude-opus-4-6", "claude-opus-4-5", "claude-sonnet-4-6", "claude-sonnet-4-5",
     "gemini-pro", "gemini-1.5-pro", "gemini-2.0-pro"]
  else []

/-- `CLASS_STALENESS_SECONDS.get(cls)`: staleness threshold (seconds) per class. -/
def CLASS_STALENESS_SECONDS (cls : String) : Option Nat :=
  if cls == "coder" then some (5 * 60)
  else if cls == "builder" then some (5 * 60)
  else if cls == "recon" then some (5 * 60)
  else if cls == "lead" then some (15 * 60)
  else if cls == "oracle" then some (30 * 60)
  else none

/-- Keys of `TRIGGER_WORDS`, in dict insertion order. -/
def TRIGGER_WORDS : List String :=
  ["fenix_down", "moon_crash", "sitrep", "rally", "retreat",
   "hot_zone", "stand_down", "recon"]

/-- `_scan_triggers`: case-insensitive substring scan of a message. -/
def _scan_triggers (message : String) : List String :=
  TRIGGER_WORDS.filter (fun w => str_has_sub (lower_str message) w)

/-! ### Data model: one structure per table of `init_db` -/

structure Agent where
  name : String
  agent_class : String
  model : Option String := none
  registered_at : Option Nat := none
  last_seen : Option Nat := none
  last_inbox_check : Option Nat := none
  context_updated_at : Option Nat := none
  description : Option String := none
  status : String := "waiting for work"
  context : Option String := none
  context_tokens_used : Option Nat := none
  context_tokens_limit : Option Nat := none
  transport : String := "terminal"
deriving Repr, DecidableEq

structure Message where
  id : Nat
  from_agent : String
  to_agent : String
  content : String
  timestamp : Nat
  read_flag : Bool := false
  is_cc : Bool := false
  cc_original_to : Option String := none
deriving Repr, DecidableEq

structure BattlePlan where
  id : Nat
  set_by : String
  plan : String
  status : String
  created_at : Nat
  updated_at : Nat
deriving Repr, DecidableEq

structure RaidEntry where
  id : Nat
  agent_name : String
  entry : String
  priority : String
  created_at : Nat
deriving Repr, DecidableEq

structure Task where
  id : Nat
  title : String
  task_file : String
  project : Option String := none
  zone : Option String := none
  status : String := "open"
  blocked_by : Option String := none
  assigned_to : Option String := none
  created_by : String
  files : Option String := none
  progress : Option String := none
  activity_count : Nat := 0
  result_file : Option String := none
  created_at : Nat
  updated_at : Nat
deriving Repr, DecidableEq

structure FileClaim where
  file_path : String
  agent_name : String
  claimed_at : Nat
deriving Repr, DecidableEq

structure WaitEntry where
  id : Nat
  file_path : String
  agent_name : String
  added_at : Nat
deriving Repr, DecidableEq

structure FenixRecord where
  id : Nat
  agent_name : String
  files : List String
  manifest : String
  consumed : Bool
  created_at : Nat
deriving Repr, DecidableEq

structure Flag where
  key : String
  value : String
  set_by : String
  set_at : Nat
deriving Repr, DecidableEq

/-- The whole SQLite database.  Lists are in rowid (insertion) order; the
`next_*` counters model the AUTOINCREMENT sequences. -/
structure DB where
  agents : List Agent := []
  messages : List Message := []
  next_message_id : Nat := 1
  broadcast_reads : List (String × Nat) := []
  battle_plans : List BattlePlan := []
  next_plan_id : Nat := 1
  raid_log : List RaidEntry := []
  next_raid_id : Nat := 1
  tasks : List Task := []
  next_task_id : Nat := 1
  file_claims : List FileClaim := []
  file_waitlist : List WaitEntry := []
  next_wait_id : Nat := 1
  fenix_records : List FenixRecord := []
  next_fenix_id : Nat := 1
  flags : List Flag := []
deriving Repr, DecidableEq

/-! ### DB helpers -/

/-- `SELECT ... FROM agents WHERE name = ?` (first row). -/
def find_agent (s : DB) (name : String) : Option Agent :=
  s.agents.find? (fun a => a.name == name)

/-- `_get_lead`: name of the first registered lead agent, or none. -/
def _get_lead (s : DB) : Option String :=
  (s.agents.find? (fun a => a.agent_class == "lead")).map (fun a => a.name)

/-- Membership test on the `broadcast_reads` relation. -/
def read_by (br : List (String × Nat)) (n : String) (i : Nat) : Bool :=
  br.any (fun p => p.1 == n && p.2 == i)

/-- `INSERT OR IGNORE INTO broadcast_reads` for one row. -/
def insert_read (br : List (String × Nat)) (n : String) (i : Nat) : List (String × Nat) :=
  if read_by br n i then br else br ++ [(n, i)]

/-- Count of unread direct messages for an agent (first gate of `send`). -/
def unread_direct_count (s : DB) (name : String) : Nat :=
  (s.messages.filter (fun m => m.to_agent == name && m.read_flag == false)).length

/-- Count of unacknowledged broadcasts not authored by the agent. -/
def unread_broadcast_count (s : DB) (name : String) : Nat :=
  (s.messages.filter (fun m =>
    m.to_agent == "all" && m.from_agent != name &&
    !(read_by s.broadcast_reads name m.id))).length

def unread_count (s : DB) (name : String) : Nat :=
  unread_direct_count s name + unread_broadcast_count s name

/-- `SELECT COUNT(*) FROM battle_plan WHERE status = 'active'`. -/
def active_plan_count (s : DB) : Nat :=
  (s.battle_plans.filter (fun p => p.status == "active")).length

/-- `_staleness_check`: is the agent's context stale per its class threshold?
Unknown agents and classes without a threshold are never stale. -/
def _staleness_check (now : Nat) (s : DB) (name : String) : Bool :=
  match find_agent s name with
  | none => false
  | some a =>
    match CLASS_STALENESS_SECONDS a.agent_class with
    | none => false
    | some th =>
      match a.context_updated_at with
      | none => true
      | some t => decide (th < now - t)

/-- The `flags` check at the top of `assign_task`:
`moon_crash` row present with value `'1'`. -/
def moon_crash_active (s : DB) : Bool :=
  match s.flags.find? (fun f => f.key == "moon_crash") with
  | some f => f.value == "1"
  | none => false

/-- Upsert on the `flags` table (`INSERT ... ON CONFLICT(key) DO UPDATE`). -/
def set_flag (key value setter : String) (now : Nat) (s : DB) : DB :=
  if s.flags.any (fun f => f.key == key) then
    { s with flags := s.flags.map (fun f =>
        if f.key == key then { f with value := value, set_by := setter, set_at := now } else f) }
  else
    { s with flags := s.flags ++ [{ key := key, value := value, set_by := setter, set_at := now }] }

/-- Explicit CC list parsing in `send`. -/
def explicit_cc (cc : String) : List String := split_csv cc

/-- CC list construction in `send`: explicit list plus auto-CC of the lead
unless the sender or primary recipient is the lead or the lead is already listed. -/
def cc_fanout (lead : Option String) (from_agent to_agent : String)
    (l : List String) : List String :=
  match lead with
  | none => l
  | some ld =>
    if from_agent != ld && to_agent != ld && !(l.contains ld) then l ++ [ld] else l

/-- The CC-copy insertion loop of `send`: one CC message per listed agent,
with consecutive autoincrement ids. -/
def mk_cc_messages (from_agent to_agent content : String) (ts : Nat) :
    Nat → List String → List Message
  | _, [] => []
  | nid, c :: rest =>
    { id := nid, from_agent := from_agent, to_agent := c, content := content,
      timestamp := ts, read_flag := false, is_cc := true,
      cc_original_to := some to_agent } :: mk_cc_messages from_agent to_agent content ts (nid + 1) rest

/-! ### Structured operation results

Each tool returns a string to the caller; the model replaces each textual
return site with a constructor so that success and each failure mode stay
distinguishable. -/

inductive Outcome where
  | registered (name : String)
  | invalidTransport (t : String)
  | invalidClass (c : String)
  | blockedModel (m : String)
  | deregistered (name : String)
  | agentNotFound (name : String)
  | renamed (old new : String)
  | nameTaken (name : String)
  | statusSet (name status : String)
  | contextUpdated (name : String)
  | blockedUnread (n : Nat)
  | blockedNoPlan
  | blockedStale
  | sent (cc : List String) (triggers : List String)
  | inbox (msgs : List Message)
  | purged (deleted : Nat)
  | planSet (id : Nat)
  | planStatusUpdated (id : Nat) (old new : String)
  | planNotFound (id : Nat)
  | invalidStatus (st : String)
  | invalidPriority (p : String)
  | logged (id : Nat)
  | blockedNotRegistered (name : String)
  | blockedNotLead (name cls : String)
  | blockedFileMissing (path : String)
  | invalidBlockerId (raw : String)
  | blockedBlockerMissing (id : Nat)
  | taskCreated (id : Nat)
  | blockedMoonCrash
  | taskNotFound (id : Nat)
  | blockedTaskClosed (id : Nat)
  | taskAssigned (id : Nat) (assignee : String)
  | blockedClosedViaUpdate
  | taskUpdated (id : Nat) (count : Nat)
  | resultSubmitted (id : Nat)
  | taskAlreadyClosed (id : Nat)
  | blockedNoResultFile (id : Nat)
  | taskClosed (id : Nat)
  | fileClaimed (path : String)
  | fileAlreadyYours (path : String)
  | blockedFileClaimed (path holder : String)
  | fileNotClaimed (path : String)
  | blockedNotHolder (path holder : String)
  | fileReleased (path : String) (waiters : List String)
  | coldStarted (name : String)
  | blockedNoFiles
  | fenixRecorded (id : Nat)
  | debriefFiled (name : String)
  | blockedNoDebrief
  | blockedOpenTasks (n : Nat)
  | sessionEnded (name : String)
  | flagCleared
  | flagNotActive
deriving Repr

/-! ### Operations (one function per MCP tool that mutates state) -/

/-- `register`: create-or-refresh an agent, then back-date broadcasts
older than one hour as read. -/
def register (agent_name agent_class model description transport : String)
    (now : Nat) (s : DB) : DB × Outcome :=
  if !(transport == "terminal" || transport == "daemon") then (s, .invalidTransport transport)
  else if !(VALID_CLASSES.contains agent_class) then (s, .invalidClass agent_class)
  else
    let allowed := CLASS_MODEL_WHITELIST agent_class
    if !allowed.isEmpty && model != "" && !(allowed.contains model) then (s, .blockedModel model)
    else
      let s1 :=
        if (find_agent s agent_name).isSome then
          { s with agents := s.agents.map (fun (a : Agent) => if a.name == agent_name then
              { a with
                last_seen := some now
                agent_class := agent_class
                model := if model == "" then a.model else some model
                description := if description == "" then a.description else some description
                transport := transport
                status := "waiting for work" } else a) }
        else
          { s with agents := s.agents ++ [{
              name := agent_name
              agent_class := agent_class
              model := if model == "" then none else some model
              registered_at := some now
              last_seen := some now
              description := if description == "" then none else some description
              transport := transport }] }
      let cutoff := now - 3600
      let old_bc := s1.messages.filter (fun m => m.to_agent == "all" && m.timestamp < cutoff)
      let new_br := old_bc.foldl (fun br m => insert_read br agent_name m.id) s1.broadcast_reads
      let s2 := { s1 with broadcast_reads := new_br }
      (s2, .registered agent_name)

/-- `deregister`: remove the agent, releasing its file claims and
stripping it from every waitlist. -/
def deregister (agent_name : String) (s : DB) : DB × Outcome :=
  match find_agent s agent_name with
  | none => (s, .agentNotFound agent_name)
  | some _ =>
    ({ s with
        file_claims := s.file_claims.filter (fun c => c.agent_name != agent_name)
        file_waitlist := s.file_waitlist.filter (fun w => w.agent_name != agent_name)
        agents := s.agents.filter (fun a => a.name != agent_name) },
     .deregistered agent_name)

/-- `rename`: requires the new name to be unused; rewrites the agent row,
message from/to/cc-original fields and broadcast-read ownership. -/
def rename (old_name new_name : String) (s : DB) : DB × Outcome :=
  if (find_agent s old_name).isNone then (s, .agentNotFound old_name)
  else if (find_agent s new_name).isSome then (s, .nameTaken new_name)
  else
    let s1 := { s with agents := s.agents.map (fun (a : Agent) =>
      if a.name == old_name then { a with name := new_name } else a) }
    let s2 := { s1 with messages := s1.messages.map (fun (m : Message) =>
      let m1 := if m.from_agent == old_name then { m with from_agent := new_name } else m
      let m2 := if m1.to_agent == old_name then { m1 with to_agent := new_name } else m1
      if m2.cc_original_to == some old_name then { m2 with cc_original_to := some new_name } else m2) }
    let s3 := { s2 with broadcast_reads := s2.broadcast_reads.map (fun (pr : String × Nat) =>
      if pr.1 == old_name then (new_name, pr.2) else pr) }
    (s3, .renamed old_name new_name)

/-- `set_status`: unconditional UPDATE; reports success whether or not the
agent exists. -/
def set_status (agent_name status : String) (now : Nat) (s : DB) : DB × Outcome :=
  ({ s with agents := s.agents.map (fun (a : Agent) =>
      if a.name == agent_name then { a with status := status, last_seen := some now } else a) },
   .statusSet agent_name status)

/-- `set_context`: unconditional UPDATE of context summary, HP metrics and
the staleness clock; reports success whether or not the agent exists. -/
def set_context (agent_name context : String) (tokens_used tokens_limit : Nat)
    (now : Nat) (s : DB) : DB × Outcome :=
  ({ s with agents := s.agents.map (fun (a : Agent) =>
      if a.name == agent_name then
        { a with
          context := some context
          context_tokens_used := if tokens_used == 0 then none else some tokens_used
          context_tokens_limit := if tokens_limit == 0 then none else some tokens_limit
          context_updated_at := some now
          last_seen := some now } else a) },
   .contextUpdated agent_name)

/-- The fallback row inserted by `send` for an unknown sender. -/
def auto_agent (name : String) (now : Nat) : Agent :=
  { name := name, agent_class := "coder", registered_at := some now, last_seen := some now }

/-- `send`: the three gates (unread inbox, active plan, staleness) in order,
then primary insert, CC fan-out, liveness refresh and trigger scan. -/
def send (from_agent to_agent message cc : String) (now : Nat) (s : DB) : DB × Outcome :=
  let unread := unread_count s from_agent
  if unread > 0 then (s, .blockedUnread unread)
  else if active_plan_count s == 0 then (s, .blockedNoPlan)
  else if _staleness_check now s from_agent then (s, .blockedStale)
  else
    let s1 := if (find_agent s from_agent).isNone then
        { s with agents := s.agents ++ [auto_agent from_agent now] } else s
    let primary : Message := {
      id := s1.next_message_id
      from_agent := from_agent
      to_agent := to_agent
      content := message
      timestamp := now }
    let s2 := { s1 with
      messages := s1.messages ++ [primary]
      next_message_id := s1.next_message_id + 1 }
    let cc_agents := cc_fanout (_get_lead s1) from_agent to_agent (explicit_cc cc)
    let deliver := cc_agents.filter (fun c => c != to_agent)
    let cc_msgs := mk_cc_messages from_agent to_agent message now s2.next_message_id deliver
    let s3 := { s2 with
      messages := s2.messages ++ cc_msgs
      next_message_id := s2.next_message_id + cc_msgs.length }
    let s4 := { s3 with agents := s3.agents.map (fun (a : Agent) =>
      if a.name == from_agent then { a with last_seen := some now } else a) }
    let triggers := _scan_triggers message
    let s5 := if triggers.contains "moon_crash" then set_flag "moon_crash" "1" from_agent now s4
      else s4
    (s5, .sent cc_agents triggers)

/-- Stable insertion into a timestamp-ascending list (Python's stable sort). -/
def insert_ts (m : Message) : List Message → List Message
  | [] => [m]
  | x :: xs => if m.timestamp < x.timestamp then m :: x :: xs else x :: insert_ts m xs

def sort_ts (l : List Message) : List Message :=
  l.foldl (fun acc m => insert_ts m acc) []

/-- `check_inbox`: marks unread direct messages read, acknowledges unseen
broadcasts, returns both merged and sorted by timestamp. -/
def check_inbox (agent_name : String) (now : Nat) (s : DB) : DB × Outcome :=
  let s1 := { s with agents := s.agents.map (fun (a : Agent) =>
    if a.name == agent_name then { a with last_seen := some now, last_inbox_check := some now }
    else a) }
  let direct := s1.messages.filter (fun m => m.to_agent == agent_name && m.read_flag == false)
  let direct_ids := direct.map (fun m => m.id)
  let s2 := { s1 with messages := s1.messages.map (fun (m : Message) =>
    if direct_ids.contains m.id then { m with read_flag := true } else m) }
  let broadcasts := s2.messages.filter (fun m =>
    m.to_agent == "all" && !(read_by s2.broadcast_reads agent_name m.id))
  let new_br := broadcasts.foldl (fun br m => insert_read br agent_name m.id) s2.broadcast_reads
  let s3 := { s2 with broadcast_reads := new_br }
  (s3, .inbox (sort_ts (direct ++ broadcasts)))

/-- `purge_inbox`: delete old direct messages, dismiss old broadcasts,
drop dangling broadcast reads for the agent. -/
def purge_inbox (agent_name : String) (older_than_hours : Nat) (now : Nat)
    (s : DB) : DB × Outcome :=
  let cutoff := now - older_than_hours * 3600
  let deleted := (s.messages.filter (fun m =>
    m.to_agent == agent_name && m.timestamp < cutoff)).length
  let s1 := { s with messages := s.messages.filter (fun m =>
    !(m.to_agent == agent_name && m.timestamp < cutoff)) }
  let dismissed := (s1.messages.filter (fun m =>
    m.to_agent == "all" && m.timestamp < cutoff)).foldl
      (fun br m => insert_read br agent_name m.id) s1.broadcast_reads
  let s2 := { s1 with broadcast_reads := dismissed }
  let ids := s2.messages.map (fun m => m.id)
  let s3 := { s2 with broadcast_reads := s2.broadcast_reads.filter (fun p =>
    !(p.1 == agent_name && !(ids.contains p.2))) }
  (s3, .purged deleted)

/-- `set_battle_plan`: lead only; supersedes every active plan, then inserts
the new plan as active. -/
def set_battle_plan (agent_name plan : String) (now : Nat) (s : DB) : DB × Outcome :=
  match find_agent s agent_name with
  | none => (s, .blockedNotRegistered agent_name)
  | some a =>
    if a.agent_class != "lead" then (s, .blockedNotLead agent_name a.agent_class)
    else
      let s1 := { s with battle_plans := s.battle_plans.map (fun (p : BattlePlan) =>
        if p.status == "active" then { p with status := "superseded", updated_at := now } else p) }
      let newp : BattlePlan := {
        id := s.next_plan_id
        set_by := agent_name
        plan := plan
        status := "active"
        created_at := now
        updated_at := now }
      ({ s1 with
          battle_plans := s1.battle_plans ++ [newp]
          next_plan_id := s.next_plan_id + 1 },
       .planSet s.next_plan_id)

/-- `update_battle_plan_status`: lead only; sets any valid status on any
existing plan id (including `'active'`). -/
def update_battle_plan_status (agent_name : String) (plan_id : Nat) (status : String)
    (now : Nat) (s : DB) : DB × Outcome :=
  if !(BATTLE_PLAN_STATUSES.contains status) then (s, .invalidStatus status)
  else match find_agent s agent_name with
  | none => (s, .blockedNotRegistered agent_name)
  | some a =>
    if a.agent_class != "lead" then (s, .blockedNotLead agent_name a.agent_class)
    else match s.battle_plans.find? (fun p => p.id == plan_id) with
    | none => (s, .planNotFound plan_id)
    | some p =>
      ({ s with battle_plans := s.battle_plans.map (fun (q : BattlePlan) =>
          if q.id == plan_id then { q with status := status, updated_at := now } else q) },
       .planStatusUpdated plan_id p.status status)

/-- `log_raid`: any registered agent appends an entry. -/
def log_raid (agent_name entry priority : String) (now : Nat) (s : DB) : DB × Outcome :=
  if !(RAID_LOG_PRIORITIES.contains priority) then (s, .invalidPriority priority)
  else match find_agent s agent_name with
  | none => (s, .blockedNotRegistered agent_name)
  | some _ =>
    let e : RaidEntry := {
      id := s.next_raid_id
      agent_name := agent_name
      entry := entry
      priority := priority
      created_at := now }
    let s1 := { s with
      raid_log := s.raid_log ++ [e]
      next_raid_id := s.next_raid_id + 1 }
    let s2 := { s1 with agents := s1.agents.map (fun (a : Agent) =>
      if a.name == agent_name then { a with last_seen := some now } else a) }
    (s2, .logged s.next_raid_id)

/-- Validation of `blocked_by` ids in `create_task`: each must parse and
reference an existing task; the first failure aborts. -/
def parse_blockers : DB → List String → Except Outcome (List Nat)
  | _, [] => .ok []
  | s, raw :: rest =>
    match parse_nat raw with
    | none => .error (.invalidBlockerId raw)
    | some tid =>
      if (s.tasks.find? (fun t => t.id == tid)).isNone then .error (.blockedBlockerMissing tid)
      else match parse_blockers s rest with
        | .error e => .error e
        | .ok tids => .ok (tid :: tids)

/-- `create_task`: lead only, requires an active plan and an existing spec
file; validates `blocked_by`. -/
def create_task (fs : String → Bool)
    (agent_name title task_file project zone blocked_by : String)
    (now : Nat) (s : DB) : DB × Outcome :=
  match find_agent s agent_name with
  | none => (s, .blockedNotRegistered agent_name)
  | some a =>
    if a.agent_class != "lead" then (s, .blockedNotLead agent_name a.agent_class)
    else if active_plan_count s == 0 then (s, .blockedNoPlan)
    else if !(fs task_file) then (s, .blockedFileMissing task_file)
    else match parse_blockers s (split_csv blocked_by) with
    | .error e => (s, e)
    | .ok tids =>
      let bstr := if tids.isEmpty then none
        else some (String.intercalate "," (tids.map toString))
      let t : Task := {
        id := s.next_task_id
        title := title
        task_file := task_file
        project := if project == "" then none else some project
        zone := if zone == "" then none else some zone
        blocked_by := bstr
        created_by := agent_name
        created_at := now
        updated_at := now }
      ({ s with
          tasks := s.tasks ++ [t]
          next_task_id := s.next_task_id + 1 },
       .taskCreated s.next_task_id)

/-- `assign_task`: blocked by the moon_crash flag, lead only, assignee must
exist, task must exist and be non-closed. -/
def assign_task (agent_name : String) (task_id : Nat) (assigned_to : String)
    (now : Nat) (s : DB) : DB × Outcome :=
  if moon_crash_active s then (s, .blockedMoonCrash)
  else match find_agent s agent_name with
  | none => (s, .blockedNotRegistered agent_name)
  | some a =>
    if a.agent_class != "lead" then (s, .blockedNotLead agent_name a.agent_class)
    else if (find_agent s assigned_to).isNone then (s, .blockedNotRegistered assigned_to)
    else match s.tasks.find? (fun t => t.id == task_id) with
    | none => (s, .taskNotFound task_id)
    | some t =>
      if t.status == "closed" then (s, .blockedTaskClosed task_id)
      else
        ({ s with tasks := s.tasks.map (fun (x : Task) =>
            if x.id == task_id then
              { x with
                assigned_to := some assigned_to
                status := "assigned"
                updated_at := now } else x) },
         .taskAssigned task_id assigned_to)

/-- `update_task`: open to any registered agent; cannot set `'closed'`;
rejected entirely on a closed task; bumps the activity counter. -/
def update_task (agent_name : String) (task_id : Nat) (status progress files : String)
    (now : Nat) (s : DB) : DB × Outcome :=
  if status != "" && !(TASK_STATUSES.contains status) then (s, .invalidStatus status)
  else if status == "closed" then (s, .blockedClosedViaUpdate)
  else match find_agent s agent_name with
  | none => (s, .blockedNotRegistered agent_name)
  | some _ =>
    match s.tasks.find? (fun t => t.id == task_id) with
    | none => (s, .taskNotFound task_id)
    | some t =>
      if t.status == "closed" then (s, .blockedTaskClosed task_id)
      else
        let upd := fun (x : Task) =>
          let x1 := { x with activity_count := x.activity_count + 1, updated_at := now }
          let x2 := if status != "" then { x1 with status := status } else x1
          let x3 := if progress != "" then { x2 with progress := some progress } else x2
          if files != "" then { x3 with files := some files } else x3
        let s1 := { s with tasks := s.tasks.map (fun (x : Task) =>
          if x.id == task_id then upd x else x) }
        let s2 := { s1 with agents := s1.agents.map (fun (a : Agent) =>
          if a.name == agent_name then { a with last_seen := some now } else a) }
        (s2, .taskUpdated task_id (t.activity_count + 1))

/-- `submit_result`: attaches a result file (which must exist) to any
existing task — including a closed one — without changing its status. -/
def submit_result (fs : String → Bool) (agent_name : String) (task_id : Nat)
    (result_file : String) (now : Nat) (s : DB) : DB × Outcome :=
  match find_agent s agent_name with
  | none => (s, .blockedNotRegistered agent_name)
  | some _ =>
    match s.tasks.find? (fun t => t.id == task_id) with
    | none => (s, .taskNotFound task_id)
    | some _ =>
      if !(fs result_file) then (s, .blockedFileMissing result_file)
      else
        let s1 := { s with tasks := s.tasks.map (fun (x : Task) =>
          if x.id == task_id then { x with result_file := some result_file, updated_at := now }
          else x) }
        let s2 := { s1 with agents := s1.agents.map (fun (a : Agent) =>
          if a.name == agent_name then { a with last_seen := some now } else a) }
        (s2, .resultSubmitted task_id)

/-- `close_task`: lead only; a second close is a no-op failure; blocked
without a submitted result file. -/
def close_task (agent_name : String) (task_id : Nat) (now : Nat) (s : DB) : DB × Outcome :=
  match find_agent s agent_name with
  | none => (s, .blockedNotRegistered agent_name)
  | some a =>
    if a.agent_class != "lead" then (s, .blockedNotLead agent_name a.agent_class)
    else match s.tasks.find? (fun t => t.id == task_id) with
    | none => (s, .taskNotFound task_id)
    | some t =>
      if t.status == "closed" then (s, .taskAlreadyClosed task_id)
      else if t.result_file.getD "" == "" then (s, .blockedNoResultFile task_id)
      else
        ({ s with tasks := s.tasks.map (fun (x : Task) =>
            if x.id == task_id then { x with status := "closed", updated_at := now } else x) },
         .taskClosed task_id)

/-- `claim_file`: if free, grant; if already claimed by someone else,
add to the waitlist (`INSERT OR IGNORE` under the unique key) and fail. -/
def claim_file (norm : String → String) (agent_name file_path : String) (now : Nat)
    (s : DB) : DB × Outcome :=
  let p := norm file_path
  match find_agent s agent_name with
  | none => (s, .blockedNotRegistered agent_name)
  | some _ =>
    match s.file_claims.find? (fun c => c.file_path == p) with
    | some c =>
      if c.agent_name == agent_name then (s, .fileAlreadyYours p)
      else
        let w : WaitEntry := {
          id := s.next_wait_id
          file_path := p
          agent_name := agent_name
          added_at := now }
        let s1 := if s.file_waitlist.any (fun x => x.file_path == p && x.agent_name == agent_name)
          then s
          else { s with
            file_waitlist := s.file_waitlist ++ [w]
            next_wait_id := s.next_wait_id + 1 }
        (s1, .blockedFileClaimed p c.agent_name)
    | none =>
      let fc : FileClaim := { file_path := p, agent_name := agent_name, claimed_at := now }
      let s1 := { s with file_claims := s.file_claims ++ [fc] }
      let s2 := { s1 with agents := s1.agents.map (fun (a : Agent) =>
        if a.name == agent_name then { a with last_seen := some now } else a) }
      (s2, .fileClaimed p)

/-- Stable insertion into an `added_at`-ascending list (ORDER BY added_at ASC). -/
def insert_wait (w : WaitEntry) : List WaitEntry → List WaitEntry
  | [] => [w]
  | x :: xs => if w.added_at < x.added_at then w :: x :: xs else x :: insert_wait w xs

def sort_wait (l : List WaitEntry) : List WaitEntry :=
  l.foldl (fun acc w => insert_wait w acc) []

/-- `release_file`: holder (or lead with force) deletes the claim; the
waitlist is reported in FIFO order and cleared, never auto-granted. -/
def release_file (norm : String → String) (agent_name file_path : String) (force : Bool)
    (now : Nat) (s : DB) : DB × Outcome :=
  let p := norm file_path
  match find_agent s agent_name with
  | none => (s, .blockedNotRegistered agent_name)
  | some a =>
    match s.file_claims.find? (fun c => c.file_path == p) with
    | none => (s, .fileNotClaimed p)
    | some claim =>
      if claim.agent_name != agent_name && (a.agent_class != "lead" || !force) then
        (s, .blockedNotHolder p claim.agent_name)
      else
        let waiters := (sort_wait (s.file_waitlist.filter (fun w => w.file_path == p))).map
          (fun w => w.agent_name)
        let s1 := { s with file_claims := s.file_claims.filter (fun c => c.file_path != p) }
        let s2 := { s1 with file_waitlist := s1.file_waitlist.filter (fun w => w.file_path != p) }
        let s3 := { s2 with agents := s2.agents.map (fun (a2 : Agent) =>
          if a2.name == agent_name then { a2 with last_seen := some now } else a2) }
        (s3, .fileReleased p waiters)

/-- `cold_start`: registered agents only; marks their unconsumed
fenix-down records consumed and refreshes liveness. -/
def cold_start (agent_name : String) (now : Nat) (s : DB) : DB × Outcome :=
  match find_agent s agent_name with
  | none => (s, .blockedNotRegistered agent_name)
  | some _ =>
    let ids := (s.fenix_records.filter (fun r =>
      r.agent_name == agent_name && r.consumed == false)).map (fun r => r.id)
    let s1 := { s with fenix_records := s.fenix_records.map (fun (r : FenixRecord) =>
      if ids.contains r.id then { r with consumed := true } else r) }
    let s2 := { s1 with agents := s1.agents.map (fun (a : Agent) =>
      if a.name == agent_name then { a with last_seen := some now } else a) }
    (s2, .coldStarted agent_name)

/-- `fenix_down`: registered agents dump a file manifest; status becomes
`phoenix_down`. -/
def fenix_down (agent_name files manifest : String) (now : Nat) (s : DB) : DB × Outcome :=
  match find_agent s agent_name with
  | none => (s, .blockedNotRegistered agent_name)
  | some _ =>
    let file_list := split_csv files
    if file_list.isEmpty then (s, .blockedNoFiles)
    else
      let r : FenixRecord := {
        id := s.next_fenix_id
        agent_name := agent_name
        files := file_list
        manifest := manifest
        consumed := false
        created_at := now }
      let s1 := { s with
        fenix_records := s.fenix_records ++ [r]
        next_fenix_id := s.next_fenix_id + 1 }
      let s2 := { s1 with agents := s1.agents.map (fun (a : Agent) =>
        if a.name == agent_name then
          { a with status := "phoenix_down", last_seen := some now } else a) }
      (s2, .fenixRecorded s.next_fenix_id)

/-- `debrief`: lead only; files a critical raid-log entry. -/
def debrief (fs : String → Bool) (agent_name debrief_file : String) (now : Nat)
    (s : DB) : DB × Outcome :=
  match find_agent s agent_name with
  | none => (s, .blockedNotRegistered agent_name)
  | some a =>
    if a.agent_class != "lead" then (s, .blockedNotLead agent_name a.agent_class)
    else if !(fs debrief_file) then (s, .blockedFileMissing debrief_file)
    else
      let e : RaidEntry := {
        id := s.next_raid_id
        agent_name := agent_name
        entry := "DEBRIEF FILED: " ++ debrief_file
        priority := "critical"
        created_at := now }
      let s1 := { s with
        raid_log := s.raid_log ++ [e]
        next_raid_id := s.next_raid_id + 1 }
      let s2 := { s1 with agents := s1.agents.map (fun (a2 : Agent) =>
        if a2.name == agent_name then { a2 with last_seen := some now } else a2) }
      (s2, .debriefFiled agent_name)

/-- `SELECT ... WHERE status='active' ORDER BY created_at DESC LIMIT 1`. -/
def latest_active_plan (s : DB) : Option BattlePlan :=
  (s.battle_plans.filter (fun p => p.status == "active")).foldl
    (fun acc p => match acc with
      | none => some p
      | some q => if q.created_at < p.created_at then some p else some q) none

/-- `end_session`: lead only; requires a filed debrief and no open tasks;
completes the active plan and logs the session end. -/
def end_session (agent_name : String) (now : Nat) (s : DB) : DB × Outcome :=
  match find_agent s agent_name with
  | none => (s, .blockedNotRegistered agent_name)
  | some a =>
    if a.agent_class != "lead" then (s, .blockedNotLead agent_name a.agent_class)
    else if (s.raid_log.filter (fun e =>
        e.priority == "critical" && str_starts e.entry "DEBRIEF FILED:")).length == 0 then
      (s, .blockedNoDebrief)
    else
      let open_tasks := s.tasks.filter (fun t =>
        t.status == "open" || t.status == "assigned" || t.status == "in_progress")
      if !open_tasks.isEmpty then (s, .blockedOpenTasks open_tasks.length)
      else
        let s1 := match latest_active_plan s with
          | some p => { s with battle_plans := s.battle_plans.map (fun (q : BattlePlan) =>
              if q.id == p.id then { q with status := "completed", updated_at := now } else q) }
          | none => s
        let e : RaidEntry := {
          id := s1.next_raid_id
          agent_name := agent_name
          entry := "SESSION ENDED"
          priority := "critical"
          created_at := now }
        let s2 := { s1 with
          raid_log := s1.raid_log ++ [e]
          next_raid_id := s1.next_raid_id + 1 }
        (s2, .sessionEnded agent_name)

/-- `clear_moon_crash`: lead only; fails when the flag is not active. -/
def clear_moon_crash (agent_name : String) (now : Nat) (s : DB) : DB × Outcome :=
  match find_agent s agent_name with
  | none => (s, .blockedNotRegistered agent_name)
  | some a =>
    if a.agent_class != "lead" then (s, .blockedNotLead agent_name a.agent_class)
    else if !(moon_crash_active s) then (s, .flagNotActive)
    else
      ({ s with flags := s.flags.map (fun (f : Flag) =>
          if f.key == "moon_crash" then { f with value := "0", set_by := agent_name, set_at := now }
          else f) },
       .flagCleared)

/-! ### The operation alphabet

Every state-mutating tool of the server, with its arguments (including the
wall clock and the file-system/path collaborators where the tool consults
them).  Read-only tools (`who`, `get_history`, `get_battle_plan`,
`get_raid_log`, `get_tasks`, `get_task`, `get_claims`, `party_status`,
`check_activity`, `check_freshness`, `get_triggers`) never write and are
omitted. -/

inductive Op where
  | register (agent_name agent_class model description transport : String) (now : Nat)
  | deregister (agent_name : String)
  | rename (old_name new_name : String)
  | set_status (agent_name status : String) (now : Nat)
  | set_context (agent_name context : String) (tokens_used tokens_limit : Nat) (now : Nat)
  | send (from_agent to_agent message cc : String) (now : Nat)
  | check_inbox (agent_name : String) (now : Nat)
  | purge_inbox (agent_name : String) (older_than_hours : Nat) (now : Nat)
  | set_battle_plan (agent_name plan : String) (now : Nat)
  | update_battle_plan_status (agent_name : String) (plan_id : Nat) (status : String) (now : Nat)
  | log_raid (agent_name entry priority : String) (now : Nat)
  | create_task (fs : String → Bool)
      (agent_name title task_file project zone blocked_by : String) (now : Nat)
  | assign_task (agent_name : String) (task_id : Nat) (assigned_to : String) (now : Nat)
  | update_task (agent_name : String) (task_id : Nat) (status progress files : String) (now : Nat)
  | submit_result (fs : String → Bool) (agent_name : String) (task_id : Nat)
      (result_file : String) (now : Nat)
  | close_task (agent_name : String) (task_id : Nat) (now : Nat)
  | claim_file (norm : String → String) (agent_name file_path : String) (now : Nat)
  | release_file (norm : String → String) (agent_name file_path : String) (force : Bool) (now : Nat)
  | cold_start (agent_name : String) (now : Nat)
  | fenix_down (agent_name files manifest : String) (now : Nat)
  | debrief (fs : String → Bool) (agent_name debrief_file : String) (now : Nat)
  | end_session (agent_name : String) (now : Nat)
  | clear_moon_crash (agent_name : String) (now : Nat)

/-- Dispatch an operation against the database. -/
def apply_op : Op → DB → DB × Outcome
  | .register n c m d t now, s => register n c m d t now s
  | .deregister n, s => deregister n s
  | .rename o n, s => rename o n s
  | .set_status n st now, s => set_status n st now s
  | .set_context n c u l now, s => set_context n c u l now s
  | .send f t m c now, s => send f t m c now s
  | .check_inbox n now, s => check_inbox n now s
  | .purge_inbox n h now, s => purge_inbox n h now s
  | .set_battle_plan n p now, s => set_battle_plan n p now s
  | .update_battle_plan_status n pid st now, s => update_battle_plan_status n pid st now s
  | .log_raid n e p now, s => log_raid n e p now s
  | .create_task fs n t tf pj z bb now, s => create_task fs n t tf pj z bb now s
  | .assign_task n tid a now, s => assign_task n tid a now s
  | .update_task n tid st pr fl now, s => update_task n tid st pr fl now s
  | .submit_result fs n tid rf now, s => submit_result fs n tid rf now s
  | .close_task n tid now, s => close_task n tid now s
  | .claim_file nm n p now, s => claim_file nm n p now s
  | .release_file nm n p f now, s => release_file nm n p f now s
  | .cold_start n now, s => cold_start n now s
  | .fenix_down n f m now, s => fenix_down n f m now s
  | .debrief fs n d now, s => debrief fs n d now s
  | .end_session n now, s => end_session n now s
  | .clear_moon_crash n now, s => clear_moon_crash n now s

/-! ### Frame lemmas: which tables each operation leaves untouched -/

theorem set_flag_battle_plans (k v st : String) (now : Nat) (s : DB) :
    (set_flag k v st now s).battle_plans = s.battle_plans := by
  unfold set_flag; split <;> rfl

theorem set_flag_file_claims (k v st : String) (now : Nat) (s : DB) :
    (set_flag k v st now s).file_claims = s.file_claims := by
  unfold set_flag; split <;> rfl

theorem set_flag_file_waitlist (k v st : String) (now : Nat) (s : DB) :
    (set_flag k v st now s).file_waitlist = s.file_waitlist := by
  unfold set_flag; split <;> rfl

theorem register_battle_plans (n c m d t : String) (now : Nat) (s : DB) :
    ((register n c m d t now s).1).battle_plans = s.battle_plans := by
  simp only [register]; (repeat' split) <;> rfl

theorem deregister_battle_plans (n : String) (s : DB) :
    ((deregister n s).1).battle_plans = s.battle_plans := by
  simp only [deregister]; (repeat' split) <;> rfl

theorem rename_battle_plans (o n : String) (s : DB) :
    ((rename o n s).1).battle_plans = s.battle_plans := by
  simp only [rename]; (repeat' split) <;> rfl

theorem set_status_battle_plans (n st : String) (now : Nat) (s : DB) :
    ((set_status n st now s).1).battle_plans = s.battle_plans := rfl

theorem set_context_battle_plans (n c : String) (u l now : Nat) (s : DB) :
    ((set_context n c u l now s).1).battle_plans = s.battle_plans := rfl

theorem send_battle_plans (f t m c : String) (now : Nat) (s : DB) :
    ((send f t m c now s).1).battle_plans = s.battle_plans := by
  simp only [send]; (repeat' split) <;> simp [set_flag_battle_plans]

theorem check_inbox_battle_plans (n : String) (now : Nat) (s : DB) :
    ((check_inbox n now s).1).battle_plans = s.battle_plans := rfl

theorem purge_inbox_battle_plans (n : String) (h now : Nat) (s : DB) :
    ((purge_inbox n h now s).1).battle_plans = s.battle_plans := rfl

theorem log_raid_battle_plans (n e p : String) (now : Nat) (s : DB) :
    ((log_raid n e p now s).1).battle_plans = s.battle_plans := by
  simp only [log_raid]; (repeat' split) <;> rfl

theorem create_task_battle_plans (fs : String → Bool) (n t tf pj z bb : String)
    (now : Nat) (s : DB) :
    ((create_task fs n t tf pj z bb now s).1).battle_plans = s.battle_plans := by
  simp only [create_task]; (repeat' split) <;> rfl

theorem assign_task_battle_plans (n : String) (tid : Nat) (a : String) (now : Nat) (s : DB) :
    ((assign_task n tid a now s).1).battle_plans = s.battle_plans := by
  simp only [assign_task]; (repeat' split) <;> rfl

theorem update_task_battle_plans (n : String) (tid : Nat) (st pr fl : String)
    (now : Nat) (s : DB) :
    ((update_task n tid st pr fl now s).1).battle_plans = s.battle_plans := by
  simp only [update_task]; (repeat' split) <;> rfl

theorem submit_result_battle_plans (fs : String → Bool) (n : String) (tid : Nat)
    (rf : String) (now : Nat) (s : DB) :
    ((submit_result fs n tid rf now s).1).battle_plans = s.battle_plans := by
  simp only [submit_result]; (repeat' split) <;> rfl

theorem close_task_battle_plans (n : String) (tid : Nat) (now : Nat) (s : DB) :
    ((close_task n tid now s).1).battle_plans = s.battle_plans := by
  simp only [close_task]; (repeat' split) <;> rfl

theorem claim_file_battle_plans (nm : String → String) (n p : String) (now : Nat) (s : DB) :
    ((claim_file nm n p now s).1).battle_plans = s.battle_plans := by
  simp only [claim_file]; (repeat' split) <;> rfl

theorem release_file_battle_plans (nm : String → String) (n p : String) (f : Bool)
    (now : Nat) (s : DB) :
    ((release_file nm n p f now s).1).battle_plans = s.battle_plans := by
  simp only [release_file]; (repeat' split) <;> rfl

theorem cold_start_battle_plans (n : String) (now : Nat) (s : DB) :
    ((cold_start n now s).1).battle_plans = s.battle_plans := by
  simp only [cold_start]; (repeat' split) <;> rfl

theorem fenix_down_battle_plans (n f m : String) (now : Nat) (s : DB) :
    ((fenix_down n f m now s).1).battle_plans = s.battle_plans := by
  simp only [fenix_down]; (repeat' split) <;> rfl

theorem debrief_battle_plans (fs : String → Bool) (n d : String) (now : Nat) (s : DB) :
    ((debrief fs n d now s).1).battle_plans = s.battle_plans := by
  simp only [debrief]; (repeat' split) <;> rfl

theorem clear_moon_crash_battle_plans (n : String) (now : Nat) (s : DB) :
    ((clear_moon_crash n now s).1).battle_plans = s.battle_plans := by
  simp only [clear_moon_crash]; (repeat' split) <;> rfl

theorem register_claims (n c m d t : String) (now : Nat) (s : DB) :
    ((register n c m d t now s).1).file_claims = s.file_claims ∧
    ((register n c m d t now s).1).file_waitlist = s.file_waitlist := by
  refine ⟨?_, ?_⟩ <;> (simp only [register]; (repeat' split) <;> rfl)

theorem rename_claims (o n : String) (s : DB) :
    ((rename o n s).1).file_claims = s.file_claims ∧
    ((rename o n s).1).file_waitlist = s.file_waitlist := by
  refine ⟨?_, ?_⟩ <;> (simp only [rename]; (repeat' split) <;> rfl)

theorem set_status_claims (n st : String) (now : Nat) (s : DB) :
    ((set_status n st now s).1).file_claims = s.file_claims ∧
    ((set_status n st now s).1).file_waitlist = s.file_waitlist := ⟨rfl, rfl⟩

theorem set_context_claims (n c : String) (u l now : Nat) (s : DB) :
    ((set_context n c u l now s).1).file_claims = s.file_claims ∧
    ((set_context n c u l now s).1).file_waitlist = s.file_waitlist := ⟨rfl, rfl⟩

theorem send_claims (f t m c : String) (now : Nat) (s : DB) :
    ((send f t m c now s).1).file_claims = s.file_claims ∧
    ((send f t m c now s).1).file_waitlist = s.file_waitlist := by
  refine ⟨?_, ?_⟩ <;>
    (simp only [send]; (repeat' split) <;> simp [set_flag_file_claims, set_flag_file_waitlist])

theorem check_inbox_claims (n : String) (now : Nat) (s : DB) :
    ((check_inbox n now s).1).file_claims = s.file_claims ∧
    ((check_inbox n now s).1).file_waitlist = s.file_waitlist := ⟨rfl, rfl⟩

theorem purge_inbox_claims (n : String) (h now : Nat) (s : DB) :
    ((purge_inbox n h now s).1).file_claims = s.file_claims ∧
    ((purge_inbox n h now s).1).file_waitlist = s.file_waitlist := ⟨rfl, rfl⟩

theorem set_battle_plan_claims (n p : String) (now : Nat) (s : DB) :
    ((set_battle_plan n p now s).1).file_claims = s.file_claims ∧
    ((set_battle_plan n p now s).1).file_waitlist = s.file_waitlist := by
  refine ⟨?_, ?_⟩ <;> (simp only [set_battle_plan]; (repeat' split) <;> rfl)

theorem update_battle_plan_status_claims (n : String) (pid : Nat) (st : String)
    (now : Nat) (s : DB) :
    ((update_battle_plan_status n pid st now s).1).file_claims = s.file_claims ∧
    ((update_battle_plan_status n pid st now s).1).file_waitlist = s.file_waitlist := by
  refine ⟨?_, ?_⟩ <;> (simp only [update_battle_plan_status]; (repeat' split) <;> rfl)

theorem log_raid_claims (n e p : String) (now : Nat) (s : DB) :
    ((log_raid n e p now s).1).file_claims = s.file_claims ∧
    ((log_raid n e p now s).1).file_waitlist = s.file_waitlist := by
  refine ⟨?_, ?_⟩ <;> (simp only [log_raid]; (repeat' split) <;> rfl)

theorem create_task_claims (fs : String → Bool) (n t tf pj z bb : String)
    (now : Nat) (s : DB) :
    ((create_task fs n t tf pj z bb now s).1).file_claims = s.file_claims ∧
    ((create_task fs n t tf pj z bb now s).1).file_waitlist = s.file_waitlist := by
  refine ⟨?_, ?_⟩ <;> (simp only [create_task]; (repeat' split) <;> rfl)

theorem assign_task_claims (n : String) (tid : Nat) (a : String) (now : Nat) (s : DB) :
    ((assign_task n tid a now s).1).file_claims = s.file_claims ∧
    ((assign_task n tid a now s).1).file_waitlist = s.file_waitlist := by
  refine ⟨?_, ?_⟩ <;> (simp only [assign_task]; (repeat' split) <;> rfl)

theorem update_task_claims (n : String) (tid : Nat) (st pr fl : String)
    (now : Nat) (s : DB) :
    ((update_task n tid st pr fl now s).1).file_claims = s.file_claims ∧
    ((update_task n tid st pr fl now s).1).file_waitlist = s.file_waitlist := by
  refine ⟨?_, ?_⟩ <;> (simp only [update_task]; (repeat' split) <;> rfl)

theorem submit_result_claims (fs : String → Bool) (n : String) (tid : Nat)
    (rf : String) (now : Nat) (s : DB) :
    ((submit_result fs n tid rf now s).1).file_claims = s.file_claims ∧
    ((submit_result fs n tid rf now s).1).file_waitlist = s.file_waitlist := by
  refine ⟨?_, ?_⟩ <;> (simp only [submit_result]; (repeat' split) <;> rfl)

theorem close_task_claims (n : String) (tid : Nat) (now : Nat) (s : DB) :
    ((close_task n tid now s).1).file_claims = s.file_claims ∧
    ((close_task n tid now s).1).file_waitlist = s.file_waitlist := by
  refine ⟨?_, ?_⟩ <;> (simp only [close_task]; (repeat' split) <;> rfl)

theorem cold_start_claims (n : String) (now : Nat) (s : DB) :
    ((cold_start n now s).1).file_claims = s.file_claims ∧
    ((cold_start n now s).1).file_waitlist = s.file_waitlist := by
  refine ⟨?_, ?_⟩ <;> (simp only [cold_start]; (repeat' split) <;> rfl)

theorem fenix_down_claims (n f m : String) (now : Nat) (s : DB) :
    ((fenix_down n f m now s).1).file_claims = s.file_claims ∧
    ((fenix_down n f m now s).1).file_waitlist = s.file_waitlist := by
  refine ⟨?_, ?_⟩ <;> (simp only [fenix_down]; (repeat' split) <;> rfl)

theorem debrief_claims (fs : String → Bool) (n d : String) (now : Nat) (s : DB) :
    ((debrief fs n d now s).1).file_claims = s.file_claims ∧
    ((debrief fs n d now s).1).file_waitlist = s.file_waitlist := by
  refine ⟨?_, ?_⟩ <;> (simp only [debrief]; (repeat' split) <;> rfl)

theorem end_session_claims (n : String) (now : Nat) (s : DB) :
    ((end_session n now s).1).file_claims = s.file_claims ∧
    ((end_session n now s).1).file_waitlist = s.file_waitlist := by
  refine ⟨?_, ?_⟩ <;> (simp only [end_session]; (repeat' split) <;> rfl)

theorem clear_moon_crash_claims (n : String) (now : Nat) (s : DB) :
    ((clear_moon_crash n now s).1).file_claims = s.file_claims ∧
    ((clear_moon_crash n now s).1).file_waitlist = s.file_waitlist := by
  refine ⟨?_, ?_⟩ <;> (simp only [clear_moon_crash]; (repeat' split) <;> rfl)

/-! ### Generic list lemmas -/

theorem length_filter_map_le {α : Type} (f : α → α) (p : α → Bool) (l : List α)
    (h : ∀ a, p (f a) = true → p a = true) :
    ((l.map f).filter p).length ≤ (l.filter p).length := by
  induction l with
  | nil => simp
  | cons a t ih =>
    simp only [List.map_cons, List.filter_cons]
    cases hfa : p (f a) with
    | true =>
      rw [h a hfa]
      simpa using Nat.succ_le_succ ih
    | false =>
      cases ha : p a
      · simpa using ih
      · simpa using Nat.le_trans ih (Nat.le_succ _)

theorem filter_map_eq_nil {α : Type} (f : α → α) (p : α → Bool) (l : List α)
    (h : ∀ a, p (f a) = false) : (l.map f).filter p = [] := by
  induction l with
  | nil => rfl
  | cons a t ih => simp [List.filter_cons, h a, ih]

/-- If a DB update leaves `battle_plans` unchanged, the active count is unchanged. -/
theorem active_plan_count_congr {s₁ s₂ : DB} (h : s₁.battle_plans = s₂.battle_plans) :
    active_plan_count s₁ = active_plan_count s₂ := by
  unfold active_plan_count; rw [h]

/-! ### Battle-plan analysis -/

/-- Superseding every active plan leaves no active plan among the mapped rows. -/
theorem supersede_kills_active (now : Nat) (l : List BattlePlan) :
    (l.map (fun (p : BattlePlan) =>
      if p.status == "active" then { p with status := "superseded", updated_at := now } else p)).filter
      (fun p => p.status == "active") = [] := by
  apply filter_map_eq_nil
  intro a
  by_cases ha : a.status = "active"
  · simp [ha]
  · simp [ha]

/-- `set_battle_plan` either leaves the state unchanged (a blocked call) or
reports the fresh plan id. -/
theorem set_battle_plan_state_or (n p : String) (now : Nat) (s : DB) :
    (set_battle_plan n p now s).1 = s ∨
    (set_battle_plan n p now s).2 = .planSet s.next_plan_id := by
  unfold set_battle_plan
  split
  · left; rfl
  · split
    · left; rfl
    · right; rfl

/-- A successful `set_battle_plan` leaves exactly one active plan. -/
theorem set_battle_plan_success_count (n p : String) (now : Nat) (s : DB) (pid : Nat)
    (h : (set_battle_plan n p now s).2 = .planSet pid) :
    active_plan_count (set_battle_plan n p now s).1 = 1 := by
  unfold set_battle_plan at h ⊢
  split at h
  · simp at h
  · next a heq =>
    split at h
    · simp at h
    · next hlead =>
      simp only [heq]
      rw [if_neg hlead]
      simp only [active_plan_count, List.filter_append, supersede_kills_active]
      simp

/-- After a successful `set_battle_plan`, the only active plan is the newly
inserted one (every prior active plan was superseded first). -/
theorem set_battle_plan_active_is_new (n p : String) (now : Nat) (s : DB) (pid : Nat)
    (h : (set_battle_plan n p now s).2 = .planSet pid) :
    ∀ q ∈ ((set_battle_plan n p now s).1).battle_plans,
      q.status = "active" → q.id = s.next_plan_id := by
  unfold set_battle_plan at h ⊢
  split at h
  · simp at h
  · next a heq =>
    split at h
    · simp at h
    · next hlead =>
      simp only [heq]
      rw [if_neg hlead]
      intro q hq hact
      dsimp only at hq
      rcases List.mem_append.mp hq with hm | hm
      · obtain ⟨x, _, rfl⟩ := List.mem_map.mp hm
        by_cases hx : x.status = "active" <;> simp [hx] at hact
      · simp only [List.mem_singleton] at hm
        rw [hm]

/-- `set_battle_plan` from any ≤1-active state ends with at most one active plan. -/
theorem set_battle_plan_count_le (n p : String) (now : Nat) (s : DB)
    (hs : active_plan_count s ≤ 1) :
    active_plan_count (set_battle_plan n p now s).1 ≤ 1 := by
  rcases set_battle_plan_state_or n p now s with h | h
  · rw [h]; exact hs
  · rw [set_battle_plan_success_count n p now s s.next_plan_id h]

/-- `update_battle_plan_status` with a non-`'active'` target cannot increase
the number of active plans. -/
theorem update_battle_plan_status_count_le (n : String) (pid : Nat) (st : String)
    (now : Nat) (s : DB) (hst : st ≠ "active") (hs : active_plan_count s ≤ 1) :
    active_plan_count (update_battle_plan_status n pid st now s).1 ≤ 1 := by
  unfold update_battle_plan_status
  (repeat' split) <;> try exact hs
  refine Nat.le_trans ?_ hs
  unfold active_plan_count
  apply length_filter_map_le
  intro q hq
  by_cases hid : q.id = pid
  · simp only [hid] at hq
    simp only [beq_self_eq_true, if_pos] at hq
    simp only [show (st == "active") = false by simpa using hst] at hq
    cases hq
  · simpa [hid] using hq

/-- `end_session` cannot increase the number of active plans. -/
theorem end_session_count_le (n : String) (now : Nat) (s : DB)
    (hs : active_plan_count s ≤ 1) :
    active_plan_count (end_session n now s).1 ≤ 1 := by
  simp only [end_session]
  (repeat' split) <;> try exact hs
  all_goals refine Nat.le_trans ?_ hs
  all_goals unfold active_plan_count
  all_goals dsimp only
  all_goals apply length_filter_map_le
  all_goals intro q hq
  all_goals split at hq
  · simp at hq
  · exact hq

/-- A DB whose `battle_plans` agree with a ≤1-active DB is itself ≤1-active. -/
theorem count_le_of_frame {t s : DB} (h : t.battle_plans = s.battle_plans)
    (hs : active_plan_count s ≤ 1) : active_plan_count t ≤ 1 := by
  rw [active_plan_count_congr h]; exact hs

/-- The one operation shape that can break the single-active-plan bound. -/
def is_active_update : Op → Bool
  | .update_battle_plan_status _ _ st _ => st == "active"
  | _ => false

/-- A lead, one active plan (#1), and one superseded plan (#2). -/
def c1_db : DB := {
  agents := [{ name := "L", agent_class := "lead" }]
  battle_plans := [
    { id := 1, set_by := "L", plan := "p1", status := "active", created_at := 10, updated_at := 10 },
    { id := 2, set_by := "L", plan := "p0", status := "superseded", created_at := 5, updated_at := 10 }]
  next_plan_id := 3 }

/-- C1 counterexample: from a state with exactly one active battle plan, a
lead calling `update_battle_plan_status` with target status `'active'` on the
superseded plan #2 succeeds and leaves two active plans, so the claimed
invariant is not preserved by `update_battle_plan_status` for the target
status `'active'`. -/
theorem C1_single_active_plan_counterexample :
    active_plan_count c1_db = 1 ∧
    (update_battle_plan_status "L" 2 "active" 20 c1_db).2 =
      .planStatusUpdated 2 "superseded" "active" ∧
    active_plan_count (update_battle_plan_status "L" 2 "active" 20 c1_db).1 = 2 :=
  ⟨by decide, rfl, by decide⟩

/-- C1 (amended): every kernel operation except `update_battle_plan_status`
with target status `'active'` preserves the bound that at most one battle
plan is active; `set_battle_plan` supersedes every previously active plan
before inserting the new one, so after a successful call exactly one plan is
active and it is the newly inserted one. -/
theorem C1_single_active_plan :
    (∀ (op : Op) (s : DB), active_plan_count s ≤ 1 → is_active_update op = false →
      active_plan_count (apply_op op s).1 ≤ 1) ∧
    (∀ (n p : String) (now : Nat) (s : DB) (pid : Nat),
      (set_battle_plan n p now s).2 = .planSet pid →
      active_plan_count (set_battle_plan n p now s).1 = 1 ∧
      ∀ q ∈ ((set_battle_plan n p now s).1).battle_plans,
        q.status = "active" → q.id = s.next_plan_id) := by
  constructor
  · intro op s hs hop
    cases op with
    | register n c m d t now => exact count_le_of_frame (register_battle_plans n c m d t now s) hs
    | deregister n => exact count_le_of_frame (deregister_battle_plans n s) hs
    | rename o n => exact count_le_of_frame (rename_battle_plans o n s) hs
    | set_status n st now => exact count_le_of_frame (set_status_battle_plans n st now s) hs
    | set_context n c u l now => exact count_le_of_frame (set_context_battle_plans n c u l now s) hs
    | send f t m c now => exact count_le_of_frame (send_battle_plans f t m c now s) hs
    | check_inbox n now => exact count_le_of_frame (check_inbox_battle_plans n now s) hs
    | purge_inbox n h now => exact count_le_of_frame (purge_inbox_battle_plans n h now s) hs
    | set_battle_plan n p now => exact set_battle_plan_count_le n p now s hs
    | update_battle_plan_status n pid st now =>
        exact update_battle_plan_status_count_le n pid st now s
          (by simpa [is_active_update] using hop) hs
    | log_raid n e p now => exact count_le_of_frame (log_raid_battle_plans n e p now s) hs
    | create_task fs n t tf pj z bb now =>
        exact count_le_of_frame (create_task_battle_plans fs n t tf pj z bb now s) hs
    | assign_task n tid a now => exact count_le_of_frame (assign_task_battle_plans n tid a now s) hs
    | update_task n tid st pr fl now =>
        exact count_le_of_frame (update_task_battle_plans n tid st pr fl now s) hs
    | submit_result fs n tid rf now =>
        exact count_le_of_frame (submit_result_battle_plans fs n tid rf now s) hs
    | close_task n tid now => exact count_le_of_frame (close_task_battle_plans n tid now s) hs
    | claim_file nm n p now => exact count_le_of_frame (claim_file_battle_plans nm n p now s) hs
    | release_file nm n p f now =>
        exact count_le_of_frame (release_file_battle_plans nm n p f now s) hs
    | cold_start n now => exact count_le_of_frame (cold_start_battle_plans n now s) hs
    | fenix_down n f m now => exact count_le_of_frame (fenix_down_battle_plans n f m now s) hs
    | debrief fs n d now => exact count_le_of_frame (debrief_battle_plans fs n d now s) hs
    | end_session n now => exact end_session_count_le n now s hs
    | clear_moon_crash n now => exact count_le_of_frame (clear_moon_crash_battle_plans n now s) hs
  · intro n p now s pid h
    exact ⟨set_battle_plan_success_count n p now s pid h,
      set_battle_plan_active_is_new n p now s pid h⟩

/-- C1 witness: the amended theorem applied at a concrete operation and
state, with each hypothesis discharged by evaluation. -/
theorem C1_single_active_plan_witness :
    active_plan_count (apply_op (Op.set_status "L" "busy" 30) c1_db).1 ≤ 1 ∧
    active_plan_count (set_battle_plan "L" "go again" 40 c1_db).1 = 1 := by
  constructor
  · exact C1_single_active_plan.1 (Op.set_status "L" "busy" 30) c1_db (by decide) (by decide)
  · exact (C1_single_active_plan.2 "L" "go again" 40 c1_db c1_db.next_plan_id rfl).1

def claims_ok (s : DB) : Prop :=
  s.file_claims.Pairwise (fun a b => a.file_path ≠ b.file_path)

def wait_ok (s : DB) : Prop :=
  s.file_waitlist.Pairwise (fun a b => ¬(a.file_path = b.file_path ∧ a.agent_name = b.agent_name))

def wait_count (s : DB) (p n : String) : Nat :=
  (s.file_waitlist.filter (fun w => w.file_path == p && w.agent_name == n)).length

theorem inv_of_frame {t s : DB}
    (h : t.file_claims = s.file_claims ∧ t.file_waitlist = s.file_waitlist)
    (h1 : claims_ok s) (h2 : wait_ok s) : claims_ok t ∧ wait_ok t := by
  unfold claims_ok wait_ok
  rw [h.1, h.2]
  exact ⟨h1, h2⟩

theorem pairwise_append_one {α : Type} {R : α → α → Prop} {l : List α} {a : α}
    (h : l.Pairwise R) (ha : ∀ b ∈ l, R b a) : (l ++ [a]).Pairwise R := by
  rw [List.pairwise_append]
  exact ⟨h, List.pairwise_singleton _ _, by simpa using ha⟩

theorem filter_key_le_one (p n : String) : ∀ (l : List WaitEntry),
    l.Pairwise (fun a b => ¬(a.file_path = b.file_path ∧ a.agent_name = b.agent_name)) →
    (l.filter (fun w => w.file_path == p && w.agent_name == n)).length ≤ 1
  | [], _ => by simp
  | a :: t, h => by
    rcases List.pairwise_cons.mp h with ⟨ha, ht⟩
    by_cases hpa : (a.file_path == p && a.agent_name == n) = true
    · rw [List.filter_cons, if_pos hpa]
      have hnil : t.filter (fun w => w.file_path == p && w.agent_name == n) = [] := by
        rw [List.filter_eq_nil_iff]
        intro b hb hpb
        simp only [Bool.and_eq_true, beq_iff_eq] at hpa hpb
        exact ha b hb ⟨hpa.1.trans hpb.1.symm, hpa.2.trans hpb.2.symm⟩
      rw [hnil]
      simp
    · rw [List.filter_cons, if_neg hpa]
      exact filter_key_le_one p n t ht

theorem wait_count_le_one (s : DB) (p n : String) (h : wait_ok s) :
    wait_count s p n ≤ 1 :=
  filter_key_le_one p n s.file_waitlist h

theorem claim_file_inv (nm : String → String) (n p : String) (now : Nat) (s : DB)
    (h1 : claims_ok s) (h2 : wait_ok s) :
    claims_ok (claim_file nm n p now s).1 ∧ wait_ok (claim_file nm n p now s).1 := by
  simp only [claim_file]
  split
  · exact ⟨h1, h2⟩
  · split
    · split
      · exact ⟨h1, h2⟩
      · split
        · exact ⟨h1, h2⟩
        · next hany =>
          refine ⟨h1, ?_⟩
          unfold wait_ok at h2 ⊢
          dsimp only
          apply pairwise_append_one h2
          intro b hb hmatch
          have hb2 : s.file_waitlist.any (fun x => x.file_path == nm p && x.agent_name == n) = true := by
            rw [List.any_eq_true]
            exact ⟨b, hb, by simp [hmatch.1, hmatch.2]⟩
          simp [hb2] at hany
    · next hnone =>
      constructor
      · unfold claims_ok at h1 ⊢
        dsimp only
        apply pairwise_append_one h1
        intro b hb
        have := List.find?_eq_none.mp hnone b hb
        simpa using this
      · exact h2

theorem release_file_inv (nm : String → String) (n p : String) (f : Bool) (now : Nat) (s : DB)
    (h1 : claims_ok s) (h2 : wait_ok s) :
    claims_ok (release_file nm n p f now s).1 ∧ wait_ok (release_file nm n p f now s).1 := by
  simp only [release_file]
  split
  · exact ⟨h1, h2⟩
  · split
    · exact ⟨h1, h2⟩
    · split
      · exact ⟨h1, h2⟩
      · constructor
        · unfold claims_ok at h1 ⊢
          dsimp only
          exact List.Pairwise.filter _ h1
        · unfold wait_ok at h2 ⊢
          dsimp only
          exact List.Pairwise.filter _ h2

theorem deregister_inv (n : String) (s : DB)
    (h1 : claims_ok s) (h2 : wait_ok s) :
    claims_ok (deregister n s).1 ∧ wait_ok (deregister n s).1 := by
  simp only [deregister]
  split
  · exact ⟨h1, h2⟩
  · constructor
    · unfold claims_ok at h1 ⊢
      dsimp only
      exact List.Pairwise.filter _ h1
    · unfold wait_ok at h2 ⊢
      dsimp only
      exact List.Pairwise.filter _ h2

theorem claim_file_blocked_behavior (nm : String → String) (n p : String) (now : Nat)
    (s : DB) (c : FileClaim) (h2 : wait_ok s)
    (hreg : (find_agent s n).isSome = true)
    (hfound : s.file_claims.find? (fun x => x.file_path == nm p) = some c)
    (hne : c.agent_name ≠ n) :
    (claim_file nm n p now s).1.file_claims = s.file_claims ∧
    (claim_file nm n p now s).2 = .blockedFileClaimed (nm p) c.agent_name ∧
    wait_count (claim_file nm n p now s).1 (nm p) n ≤ 1 := by
  obtain ⟨a, ha⟩ := Option.isSome_iff_exists.mp hreg
  simp only [claim_file, ha, hfound]
  rw [if_neg (by simp [hne])]
  split
  · exact ⟨rfl, rfl, wait_count_le_one s (nm p) n h2⟩
  · next hany =>
    refine ⟨rfl, rfl, ?_⟩
    apply wait_count_le_one
    unfold wait_ok
    dsimp only
    apply pairwise_append_one h2
    intro b hb hmatch
    have hb2 : s.file_waitlist.any (fun x => x.file_path == nm p && x.agent_name == n) = true := by
      rw [List.any_eq_true]
      exact ⟨b, hb, by simp [hmatch.1, hmatch.2]⟩
    simp [hb2] at hany

def c2_db : DB := {
  agents := [{ name := "C", agent_class := "coder" }, { name := "B", agent_class := "builder" }]
  file_claims := [{ file_path := "/x", agent_name := "C", claimed_at := 1 }] }

/-- C2: every kernel operation preserves the invariants that each file path
has at most one claim and no agent appears twice in one path's waitlist; and
`claim_file` on a path held by a different agent grants nothing, fails with
the descriptive block naming the holder, and leaves the caller in that
path's waitlist at most once. -/
theorem C2_file_exclusion_invariants :
    (∀ (op : Op) (s : DB), claims_ok s → wait_ok s →
      claims_ok (apply_op op s).1 ∧ wait_ok (apply_op op s).1) ∧
    (∀ (nm : String → String) (n p : String) (now : Nat) (s : DB) (c : FileClaim),
      wait_ok s → (find_agent s n).isSome = true →
      s.file_claims.find? (fun x => x.file_path == nm p) = some c →
      c.agent_name ≠ n →
      (claim_file nm n p now s).1.file_claims = s.file_claims ∧
      (claim_file nm n p now s).2 = .blockedFileClaimed (nm p) c.agent_name ∧
      wait_count (claim_file nm n p now s).1 (nm p) n ≤ 1) := by
  constructor
  · intro op s h1 h2
    cases op with
    | register n c m d t now => exact inv_of_frame (register_claims n c m d t now s) h1 h2
    | deregister n => exact deregister_inv n s h1 h2
    | rename o n => exact inv_of_frame (rename_claims o n s) h1 h2
    | set_status n st now => exact inv_of_frame (set_status_claims n st now s) h1 h2
    | set_context n c u l now => exact inv_of_frame (set_context_claims n c u l now s) h1 h2
    | send f t m c now => exact inv_of_frame (send_claims f t m c now s) h1 h2
    | check_inbox n now => exact inv_of_frame (check_inbox_claims n now s) h1 h2
    | purge_inbox n h now => exact inv_of_frame (purge_inbox_claims n h now s) h1 h2
    | set_battle_plan n p now => exact inv_of_frame (set_battle_plan_claims n p now s) h1 h2
    | update_battle_plan_status n pid st now =>
        exact inv_of_frame (update_battle_plan_status_claims n pid st now s) h1 h2
    | log_raid n e p now => exact inv_of_frame (log_raid_claims n e p now s) h1 h2
    | create_task fs n t tf pj z bb now =>
        exact inv_of_frame (create_task_claims fs n t tf pj z bb now s) h1 h2
    | assign_task n tid a now => exact inv_of_frame (assign_task_claims n tid a now s) h1 h2
    | update_task n tid st pr fl now =>
        exact inv_of_frame (update_task_claims n tid st pr fl now s) h1 h2
    | submit_result fs n tid rf now =>
        exact inv_of_frame (submit_result_claims fs n tid rf now s) h1 h2
    | close_task n tid now => exact inv_of_frame (close_task_claims n tid now s) h1 h2
    | claim_file nm n p now => exact claim_file_inv nm n p now s h1 h2
    | release_file nm n p f now => exact release_file_inv nm n p f now s h1 h2
    | cold_start n now => exact inv_of_frame (cold_start_claims n now s) h1 h2
    | fenix_down n f m now => exact inv_of_frame (fenix_down_claims n f m now s) h1 h2
    | debrief fs n d now => exact inv_of_frame (debrief_claims fs n d now s) h1 h2
    | end_session n now => exact inv_of_frame (end_session_claims n now s) h1 h2
    | clear_moon_crash n now => exact inv_of_frame (clear_moon_crash_claims n now s) h1 h2
  · intro nm n p now s c h2 hreg hfound hne
    exact claim_file_blocked_behavior nm n p now s c h2 hreg hfound hne

/-- C2 witness: the invariant preservation and the blocked-claim behavior
applied at a concrete state where agent C holds `/x` and agent B claims it. -/
theorem C2_file_exclusion_witness :
    (claims_ok (apply_op (Op.claim_file (fun q => q) "B" "/x" 2) c2_db).1 ∧
     wait_ok (apply_op (Op.claim_file (fun q => q) "B" "/x" 2) c2_db).1) ∧
    ((claim_file (fun q => q) "B" "/x" 2 c2_db).1.file_claims = c2_db.file_claims ∧
     (claim_file (fun q => q) "B" "/x" 2 c2_db).2 = .blockedFileClaimed "/x" "C" ∧
     wait_count (claim_file (fun q => q) "B" "/x" 2 c2_db).1 "/x" "B" ≤ 1) := by
  constructor
  · exact C2_file_exclusion_invariants.1 (Op.claim_file (fun q => q) "B" "/x" 2) c2_db
      (by unfold claims_ok; decide) (by unfold wait_ok; decide)
  · exact C2_file_exclusion_invariants.2 (fun q => q) "B" "/x" 2 c2_db
      { file_path := "/x", agent_name := "C", claimed_at := 1 }
      (by unfold wait_ok; decide) (by decide) (by decide) (by decide)

/-! ### Closed-task analysis -/

/-- A lead, a worker, and task #1 already closed with result `/r1.md`. -/
def c3_db : DB := {
  agents := [{ name := "L", agent_class := "lead" }, { name := "W", agent_class := "coder" }]
  tasks := [{ id := 1, title := "t", task_file := "/spec.md", status := "closed",
              created_by := "L", result_file := some "/r1.md", created_at := 1, updated_at := 2 }]
  next_task_id := 2 }

/-- C3 counterexample: `submit_result` performs no closed-status check, so it
overwrites `result_file` and `updated_at` of closed task #1 — a mutation of a
closed task's row by an operation other than update/assign/close. -/
theorem C3_closed_task_counterexample :
    ((c3_db.tasks.find? (fun t => t.id == 1)).map
      (fun t => (t.status, t.result_file, t.updated_at)) = some ("closed", some "/r1.md", 2)) ∧
    (submit_result (fun _ => true) "W" 1 "/r2.md" 9 c3_db).2 = .resultSubmitted 1 ∧
    ((((submit_result (fun _ => true) "W" 1 "/r2.md" 9 c3_db).1).tasks.find?
      (fun t => t.id == 1)).map
      (fun t => (t.status, t.result_file, t.updated_at)) = some ("closed", some "/r2.md", 9)) :=
  ⟨by decide, rfl, by decide⟩

theorem update_task_closed_frame (n : String) (tid : Nat) (st pr fl : String) (now : Nat)
    (s : DB) (t : Task)
    (hfind : s.tasks.find? (fun x => x.id == tid) = some t) (hclosed : t.status = "closed") :
    (update_task n tid st pr fl now s).1 = s := by
  simp only [update_task, hfind]
  (repeat' split) <;> first | rfl | simp_all

theorem assign_task_closed_frame (n : String) (tid : Nat) (a : String) (now : Nat)
    (s : DB) (t : Task)
    (hfind : s.tasks.find? (fun x => x.id == tid) = some t) (hclosed : t.status = "closed") :
    (assign_task n tid a now s).1 = s := by
  simp only [assign_task, hfind]
  (repeat' split) <;> first | rfl | simp_all

theorem close_task_closed_frame (n : String) (tid : Nat) (now : Nat)
    (s : DB) (t : Task)
    (hfind : s.tasks.find? (fun x => x.id == tid) = some t) (hclosed : t.status = "closed") :
    (close_task n tid now s).1 = s := by
  simp only [close_task, hfind]
  (repeat' split) <;> first | rfl | simp_all

theorem close_task_closed_result (n : String) (tid : Nat) (now : Nat) (s : DB)
    (t : Task) (ag : Agent)
    (hfind : s.tasks.find? (fun x => x.id == tid) = some t) (hclosed : t.status = "closed")
    (ha : find_agent s n = some ag) (hlead : ag.agent_class = "lead") :
    close_task n tid now s = (s, .taskAlreadyClosed tid) := by
  simp only [close_task, ha, hfind]
  rw [if_neg (by simp [hlead])]
  rw [if_pos (by simp [hclosed])]

/-- C3 (amended): once a task is closed, `update_task`, `assign_task` and
`close_task` leave the whole store unchanged, and a second close by a lead is
the no-op "already closed" failure; `submit_result`, however, still mutates
the closed task's `result_file` and `updated_at`. -/
theorem C3_closed_task_terminal :
    ∀ (s : DB) (tid : Nat) (t : Task),
      s.tasks.find? (fun x => x.id == tid) = some t → t.status = "closed" →
      (∀ (n st pr fl : String) (now : Nat), (update_task n tid st pr fl now s).1 = s) ∧
      (∀ (n a : String) (now : Nat), (assign_task n tid a now s).1 = s) ∧
      (∀ (n : String) (now : Nat), (close_task n tid now s).1 = s) ∧
      (∀ (n : String) (now : Nat) (ag : Agent), find_agent s n = some ag →
        ag.agent_class = "lead" → close_task n tid now s = (s, .taskAlreadyClosed tid)) := by
  intro s tid t hfind hclosed
  exact ⟨fun n st pr fl now => update_task_closed_frame n tid st pr fl now s t hfind hclosed,
         fun n a now => assign_task_closed_frame n tid a now s t hfind hclosed,
         fun n now => close_task_closed_frame n tid now s t hfind hclosed,
         fun n now ag ha hl => close_task_closed_result n tid now s t ag hfind hclosed ha hl⟩

/-- C3 witness: the amended theorem applied at the closed task #1 of `c3_db`. -/
theorem C3_closed_task_witness :
    (update_task "W" 1 "fixed" "p" "" 9 c3_db).1 = c3_db ∧
    (assign_task "L" 1 "W" 9 c3_db).1 = c3_db ∧
    close_task "L" 1 9 c3_db = (c3_db, .taskAlreadyClosed 1) := by
  have h := C3_closed_task_terminal c3_db 1
    { id := 1, title := "t", task_file := "/spec.md", status := "closed",
      created_by := "L", result_file := some "/r1.md", created_at := 1, updated_at := 2 }
    (by decide) (by decide)
  exact ⟨h.1 "W" "fixed" "p" "" 9, h.2.1 "L" "W" 9,
    h.2.2.2 "L" 9 { name := "L", agent_class := "lead" } (by decide) (by decide)⟩

/-- C4: `send` evaluates its gates in the fixed order unread-inbox, then
active-plan, then context-staleness, returns the first failing gate's block,
and leaves the store entirely unchanged on every refusal; in particular a
sender with unread messages gets the unread block regardless of staleness. -/
theorem C4_send_gate_order :
    ∀ (f t m c : String) (now : Nat) (s : DB),
      (0 < unread_count s f →
        send f t m c now s = (s, .blockedUnread (unread_count s f))) ∧
      (unread_count s f = 0 → active_plan_count s = 0 →
        send f t m c now s = (s, .blockedNoPlan)) ∧
      (unread_count s f = 0 → 0 < active_plan_count s → _staleness_check now s f = true →
        send f t m c now s = (s, .blockedStale)) ∧
      (((∃ k, (send f t m c now s).2 = .blockedUnread k) ∨
        (send f t m c now s).2 = .blockedNoPlan ∨
        (send f t m c now s).2 = .blockedStale) → (send f t m c now s).1 = s) := by
  intro f t m c now s
  refine ⟨?_, ?_, ?_, ?_⟩
  · intro h
    simp only [send]
    rw [if_pos h]
  · intro h0 hp
    simp only [send]
    rw [if_neg (by omega), if_pos (by simp [hp])]
  · intro h0 hp hst
    simp only [send]
    rw [if_neg (by omega), if_neg (by simp only [beq_iff_eq]; omega), if_pos hst]
  · intro hblock
    by_cases h1 : unread_count s f > 0
    · simp only [send]; rw [if_pos h1]
    · by_cases h2 : (active_plan_count s == 0) = true
      · simp only [send]; rw [if_neg h1, if_pos h2]
      · by_cases h3 : _staleness_check now s f = true
        · simp only [send]; rw [if_neg h1, if_neg h2, if_pos h3]
        · exfalso
          simp only [send] at hblock
          rw [if_neg h1, if_neg h2, if_neg h3] at hblock
          rcases hblock with ⟨k, hk⟩ | hk | hk <;> simp at hk

/-- state: coder C with unread direct message, stale context, active plan -/
def c4_db : DB := {
  agents := [{ name := "L", agent_class := "lead", context_updated_at := some 100 },
             { name := "C", agent_class := "coder" }]
  messages := [{ id := 1, from_agent := "L", to_agent := "C", content := "hi", timestamp := 50 }]
  next_message_id := 2
  battle_plans := [{ id := 1, set_by := "L", plan := "go", status := "active",
                     created_at := 60, updated_at := 60 }]
  next_plan_id := 2 }

def c4_db_noplan : DB := { c4_db with battle_plans := [], messages := [] }

/-- C4 witness: a sender with both an unread message and stale context is
blocked by the unread gate; the plan and staleness gates fire in the
remaining states. -/
theorem C4_send_gate_order_witness :
    send "C" "L" "hello" "" 200 c4_db = (c4_db, .blockedUnread 1) ∧
    send "C" "L" "hello" "" 200 c4_db_noplan = (c4_db_noplan, .blockedNoPlan) ∧
    send "C" "L" "hello" "" 200 { c4_db with messages := [] } =
      ({ c4_db with messages := [] }, .blockedStale) := by
  refine ⟨?_, ?_, ?_⟩
  · have h := (C4_send_gate_order "C" "L" "hello" "" 200 c4_db).1 (by decide)
    simpa using h
  · exact (C4_send_gate_order "C" "L" "hello" "" 200 c4_db_noplan).2.1 (by decide) (by decide)
  · exact (C4_send_gate_order "C" "L" "hello" "" 200 { c4_db with messages := [] }).2.2.1
      (by decide) (by decide) (by decide)

/-- Reading the `moon_crash` flag only consults the `flags` table. -/
theorem moon_crash_active_flags (s : DB) :
    moon_crash_active s = (match s.flags.find? (fun f => f.key == "moon_crash") with
      | some f => f.value == "1"
      | none => false) := rfl

/-- The flag-value update preserves keys, so `moon_crash` lookup commutes with it. -/
theorem moon_find_map (value setter : String) (now : Nat) (l : List Flag) :
    (l.map (fun (f : Flag) =>
      if f.key == "moon_crash" then { f with value := value, set_by := setter, set_at := now }
      else f)).find? (fun f => f.key == "moon_crash") =
    (l.find? (fun f => f.key == "moon_crash")).map (fun (f : Flag) =>
      if f.key == "moon_crash" then { f with value := value, set_by := setter, set_at := now }
      else f) := by
  rw [List.find?_map]
  have hp : ((fun (f : Flag) => f.key == "moon_crash") ∘ fun (f : Flag) =>
      if f.key == "moon_crash" then { f with value := value, set_by := setter, set_at := now }
      else f) = (fun (f : Flag) => f.key == "moon_crash") := by
    funext g
    by_cases h : (g.key == "moon_crash") = true
    · rw [Function.comp_apply, if_pos h]
    · rw [Function.comp_apply, if_neg h]
  rw [hp]

/-- After `set_flag "moon_crash" "1"`, the emergency flag reads active. -/
theorem moon_active_after_set_one (setter : String) (now : Nat) (s : DB) :
    moon_crash_active (set_flag "moon_crash" "1" setter now s) = true := by
  unfold set_flag
  split
  · next hany =>
    rw [moon_crash_active_flags]
    dsimp only
    rw [moon_find_map]
    obtain ⟨x, hx, hpx⟩ := List.any_eq_true.mp hany
    have hsome : (s.flags.find? (fun f => f.key == "moon_crash")).isSome = true := by
      rw [List.find?_isSome]
      exact ⟨x, hx, hpx⟩
    obtain ⟨y, hy⟩ := Option.isSome_iff_exists.mp hsome
    have hyk := List.find?_some hy
    rw [hy]
    dsimp only [Option.map]
    rw [if_pos hyk]
    rfl
  · next hany =>
    rw [moon_crash_active_flags]
    dsimp only
    have hnone : s.flags.find? (fun f => f.key == "moon_crash") = none := by
      rw [List.find?_eq_none]
      intro x hx
      simp only [Bool.not_eq_true]
      by_contra hcon
      rw [Bool.not_eq_false] at hcon
      exact hany (List.any_eq_true.mpr ⟨x, hx, hcon⟩)
    rw [List.find?_append, hnone]
    rfl

/-- Mapping the flag value to `"0"` leaves the emergency flag inactive. -/
theorem moon_inactive_after_map_zero (setter : String) (now : Nat) (s : DB) :
    moon_crash_active { s with flags := s.flags.map (fun (f : Flag) =>
      if f.key == "moon_crash" then { f with value := "0", set_by := setter, set_at := now }
      else f) } = false := by
  rw [moon_crash_active_flags]
  dsimp only
  rw [moon_find_map]
  cases hy : s.flags.find? (fun f => f.key == "moon_crash") with
  | none => rfl
  | some y =>
    have hyk := List.find?_some hy
    dsimp only [Option.map]
    rw [if_pos hyk]
    rfl

theorem scan_contains_moon (msg : String)
    (h : str_has_sub (lower_str msg) "moon_crash" = true) :
    (_scan_triggers msg).contains "moon_crash" = true := by
  unfold _scan_triggers
  have hm : "moon_crash" ∈ TRIGGER_WORDS.filter (fun w => str_has_sub (lower_str msg) w) := by
    rw [List.mem_filter]
    exact ⟨by decide, h⟩
  exact List.elem_eq_true_of_mem hm




theorem send_moon_sets_flag (f t m c : String) (now : Nat) (s : DB) (ccl trg : List String)
    (hsend : (send f t m c now s).2 = .sent ccl trg)
    (hsub : str_has_sub (lower_str m) "moon_crash" = true) :
    moon_crash_active (send f t m c now s).1 = true := by
  by_cases h1 : unread_count s f > 0
  · exfalso
    simp only [send] at hsend
    rw [if_pos h1] at hsend
    simp at hsend
  · by_cases h2 : (active_plan_count s == 0) = true
    · exfalso
      simp only [send] at hsend
      rw [if_neg h1, if_pos h2] at hsend
      simp at hsend
    · by_cases h3 : _staleness_check now s f = true
      · exfalso
        simp only [send] at hsend
        rw [if_neg h1, if_neg h2, if_pos h3] at hsend
        simp at hsend
      · simp only [send]
        rw [if_neg h1, if_neg h2, if_neg h3]
        dsimp only
        rw [if_pos (scan_contains_moon m hsub)]
        exact moon_active_after_set_one f now _

theorem assign_task_moon_blocked (n : String) (tid : Nat) (a : String) (now : Nat) (s : DB)
    (h : moon_crash_active s = true) :
    assign_task n tid a now s = (s, .blockedMoonCrash) := by
  unfold assign_task
  rw [if_pos h]

theorem clear_moon_crash_lead (n : String) (now : Nat) (s : DB) (ag : Agent)
    (ha : find_agent s n = some ag) (hl : ag.agent_class = "lead")
    (hact : moon_crash_active s = true) :
    (clear_moon_crash n now s).2 = .flagCleared ∧
    moon_crash_active (clear_moon_crash n now s).1 = false := by
  unfold clear_moon_crash
  rw [ha]
  dsimp only
  rw [if_neg (by simp [hl]), if_neg (by simp [hact])]
  exact ⟨rfl, moon_inactive_after_map_zero n now s⟩

theorem clear_moon_crash_nonlead (n : String) (now : Nat) (s : DB) (ag : Agent)
    (ha : find_agent s n = some ag) (hl : ag.agent_class ≠ "lead") :
    clear_moon_crash n now s = (s, .blockedNotLead n ag.agent_class) := by
  unfold clear_moon_crash
  rw [ha]
  dsimp only
  rw [if_pos (by simp [hl])]

/-- C5: a successful `send` whose text contains the substring `moon_crash`
(case-insensitively) sets the persistent flag; while the flag is set every
`assign_task` fails with the moon-crash block and mutates nothing;
`clear_moon_crash` by a lead clears the flag and re-enables assignment,
while a non-lead caller is rejected without effect. -/
theorem C5_moon_crash_lifecycle :
    (∀ (f t m c : String) (now : Nat) (s : DB) (ccl trg : List String),
      (send f t m c now s).2 = .sent ccl trg →
      str_has_sub (lower_str m) "moon_crash" = true →
      moon_crash_active (send f t m c now s).1 = true) ∧
    (∀ (n : String) (tid : Nat) (a : String) (now : Nat) (s : DB),
      moon_crash_active s = true →
      assign_task n tid a now s = (s, .blockedMoonCrash)) ∧
    (∀ (n : String) (now : Nat) (s : DB) (ag : Agent),
      find_agent s n = some ag → ag.agent_class = "lead" → moon_crash_active s = true →
      (clear_moon_crash n now s).2 = .flagCleared ∧
      moon_crash_active (clear_moon_crash n now s).1 = false) ∧
    (∀ (n : String) (now : Nat) (s : DB) (ag : Agent),
      find_agent s n = some ag → ag.agent_class ≠ "lead" →
      clear_moon_crash n now s = (s, .blockedNotLead n ag.agent_class)) :=
  ⟨send_moon_sets_flag, assign_task_moon_blocked, clear_moon_crash_lead, clear_moon_crash_nonlead⟩

def c5_db : DB := {
  agents := [{ name := "L", agent_class := "lead", context_updated_at := some 100 },
             { name := "C", agent_class := "coder", context_updated_at := some 100 }]
  battle_plans := [{ id := 1, set_by := "L", plan := "go", status := "active",
                     created_at := 50, updated_at := 50 }]
  next_plan_id := 2
  tasks := [{ id := 1, title := "t", task_file := "/f", created_by := "L",
              created_at := 1, updated_at := 1 }]
  next_task_id := 2 }

/-- C5 witness: the spec scenario — coder C sends a `moon_crash` message,
the lead's assignment is blocked, a coder cannot clear the flag, the lead
can. -/
theorem C5_moon_crash_lifecycle_witness :
    moon_crash_active (send "C" "L" "execute moon_crash now" "" 150 c5_db).1 = true ∧
    assign_task "L" 1 "C" 160 (send "C" "L" "execute moon_crash now" "" 150 c5_db).1 =
      ((send "C" "L" "execute moon_crash now" "" 150 c5_db).1, .blockedMoonCrash) ∧
    clear_moon_crash "C" 170 (send "C" "L" "execute moon_crash now" "" 150 c5_db).1 =
      ((send "C" "L" "execute moon_crash now" "" 150 c5_db).1,
       .blockedNotLead "C" "coder") ∧
    (clear_moon_crash "L" 180 (send "C" "L" "execute moon_crash now" "" 150 c5_db).1).2 =
      .flagCleared ∧
    moon_crash_active
      (clear_moon_crash "L" 180 (send "C" "L" "execute moon_crash now" "" 150 c5_db).1).1 =
      false := by
  refine ⟨?_, ?_, ?_, ?_, ?_⟩
  · exact C5_moon_crash_lifecycle.1 "C" "L" "execute moon_crash now" "" 150 c5_db [] ["moon_crash"]
      rfl (by decide)
  · exact C5_moon_crash_lifecycle.2.1 "L" 1 "C" 160 _ (by decide)
  · exact C5_moon_crash_lifecycle.2.2.2 "C" 170 _
      { name := "C", agent_class := "coder", context_updated_at := some 100,
        last_seen := some 150 } (by decide) (by decide)
  · exact (C5_moon_crash_lifecycle.2.2.1 "L" 180 _
      { name := "L", agent_class := "lead", context_updated_at := some 100 }
      (by decide) (by decide) (by decide)).1
  · exact (C5_moon_crash_lifecycle.2.2.1 "L" 180 _
      { name := "L", agent_class := "lead", context_updated_at := some 100 }
      (by decide) (by decide) (by decide)).2

def c6_db : DB := {
  agents := [{ name := "L", agent_class := "lead", context_updated_at := some 100 },
             { name := "A", agent_class := "coder", context_updated_at := some 100 },
             { name := "X", agent_class := "coder", context_updated_at := some 100 },
             { name := "B", agent_class := "coder", context_updated_at := some 100 }]
  battle_plans := [{ id := 1, set_by := "L", plan := "go", status := "active",
                     created_at := 50, updated_at := 50 }]
  next_plan_id := 2 }

/-- C6 counterexample: an explicit CC list `"X,X"` is not de-duplicated — the
resulting CC list is `["X","X","L"]` and agent X receives two CC copies of
the same message. -/
theorem C6_cc_dedup_counterexample :
    (send "A" "B" "hi" "X,X" 150 c6_db).2 = .sent ["X", "X", "L"] [] ∧
    (((send "A" "B" "hi" "X,X" 150 c6_db).1).messages.filter
      (fun m => m.is_cc && m.to_agent == "X")).length = 2 :=
  ⟨rfl, by decide⟩

theorem set_flag_messages (k v st : String) (now : Nat) (s : DB) :
    (set_flag k v st now s).messages = s.messages := by
  unfold set_flag; split <;> rfl

theorem get_lead_auto (f : String) (now : Nat) (s : DB) :
    _get_lead { s with agents := s.agents ++ [auto_agent f now] } = _get_lead s := by
  unfold _get_lead auto_agent
  dsimp only
  rw [List.find?_append]
  cases h : s.agents.find? (fun a => a.agent_class == "lead") with
  | none => simp
  | some a => simp

theorem mem_mk_cc_messages (f t m : String) (ts : Nat) :
    ∀ (nid : Nat) (l : List String) (msg : Message),
    msg ∈ mk_cc_messages f t m ts nid l → msg.to_agent ∈ l ∧ msg.is_cc = true
  | _, [], _, h => by cases h
  | nid, c :: rest, msg, h => by
    cases h with
    | head => exact ⟨List.mem_cons_self _ _, rfl⟩
    | tail _ h2 =>
      have h3 := mem_mk_cc_messages f t m ts (nid + 1) rest msg h2
      exact ⟨List.mem_cons_of_mem _ h3.1, h3.2⟩

theorem send_success_shape (f t m c : String) (now : Nat) (s : DB) (ccl trg : List String)
    (hsend : (send f t m c now s).2 = .sent ccl trg) :
    ccl = cc_fanout (_get_lead s) f t (explicit_cc c) ∧
    trg = _scan_triggers m ∧
    ∃ (nid : Nat),
      ((send f t m c now s).1).messages =
        s.messages ++ [⟨nid, f, t, m, now, false, false, none⟩] ++
        mk_cc_messages f t m now (nid + 1) (ccl.filter (fun x => x != t)) := by
  by_cases h1 : unread_count s f > 0
  · exfalso
    simp only [send] at hsend
    rw [if_pos h1] at hsend
    simp at hsend
  · by_cases h2 : (active_plan_count s == 0) = true
    · exfalso
      simp only [send] at hsend
      rw [if_neg h1, if_pos h2] at hsend
      simp at hsend
    · by_cases h3 : _staleness_check now s f = true
      · exfalso
        simp only [send] at hsend
        rw [if_neg h1, if_neg h2, if_pos h3] at hsend
        simp at hsend
      · simp only [send] at hsend ⊢
        rw [if_neg h1, if_neg h2, if_neg h3] at hsend ⊢
        dsimp only at hsend ⊢
        by_cases h4 : (find_agent s f).isNone = true
        · rw [if_pos h4] at hsend ⊢
          rw [get_lead_auto] at hsend ⊢
          have hinj := (Outcome.sent.injEq _ _ _ _).mp hsend.symm
          refine ⟨hinj.1, hinj.2, s.next_message_id, ?_⟩
          rw [hinj.1]
          split
          · rw [set_flag_messages]
          · rfl
        · rw [if_neg h4] at hsend ⊢
          have hinj := (Outcome.sent.injEq _ _ _ _).mp hsend.symm
          refine ⟨hinj.1, hinj.2, s.next_message_id, ?_⟩
          rw [hinj.1]
          split
          · rw [set_flag_messages]
          · rfl




theorem mk_cc_length (f t m : String) (ts : Nat) : ∀ (nid : Nat) (l : List String),
    (mk_cc_messages f t m ts nid l).length = l.length
  | _, [] => rfl
  | nid, c :: rest => by
    simp only [mk_cc_messages, List.length_cons]
    rw [mk_cc_length f t m ts (nid + 1) rest]

/-- C6 (amended): on every successful `send`, the CC list is exactly the
explicit comma-split CC list plus an automatic CC to the sole
(first-registered) lead, appended iff the sender is not the lead, the
primary recipient is not the lead, and the lead is not already listed;
duplicates in the explicit list are preserved (the list is not
de-duplicated), and no CC copy is ever delivered to the primary recipient
(every new message is the primary, a non-CC, or addressed elsewhere; the
number of new messages is 1 plus the CC list filtered of the primary
recipient). -/
theorem C6_cc_fanout (f t m c : String) (now : Nat) (s : DB) (ccl trg : List String)
    (hsend : (send f t m c now s).2 = .sent ccl trg) :
    ccl = cc_fanout (_get_lead s) f t (explicit_cc c) ∧
    (∀ ld, _get_lead s = some ld →
      (ccl = explicit_cc c ++ [ld] ↔ f ≠ ld ∧ t ≠ ld ∧ ld ∉ explicit_cc c)) ∧
    (∀ msg ∈ ((send f t m c now s).1).messages,
      msg ∈ s.messages ∨ msg.is_cc = false ∨ msg.to_agent ≠ t) ∧
    ((send f t m c now s).1).messages.length =
      s.messages.length + 1 + (ccl.filter (fun x => x != t)).length := by
  obtain ⟨h1, h2, nid, hmsgs⟩ := send_success_shape f t m c now s ccl trg hsend
  refine ⟨h1, ?_, ?_, ?_⟩
  · intro ld hld
    have hc : ccl = cc_fanout (some ld) f t (explicit_cc c) := by rw [h1, hld]
    unfold cc_fanout at hc
    dsimp only at hc
    constructor
    · intro happ
      by_cases hcond : (f != ld && t != ld && !((explicit_cc c).contains ld)) = true
      · rw [if_pos hcond] at hc
        simp at hcond
        exact ⟨hcond.1.1, hcond.1.2, hcond.2⟩
      · rw [if_neg hcond] at hc
        rw [hc] at happ
        have hlen := congrArg List.length happ
        simp at hlen
    · rintro ⟨hf, ht, hmem⟩
      have hnc : (explicit_cc c).contains ld = false := by
        cases hcon : (explicit_cc c).contains ld
        · rfl
        · exact absurd (List.mem_of_elem_eq_true hcon) hmem
      rw [hc, if_pos]
      simp only [Bool.and_eq_true, bne_iff_ne, Bool.not_eq_true']
      exact ⟨⟨hf, ht⟩, hnc⟩
  · intro msg hmsg
    rw [hmsgs] at hmsg
    rcases List.mem_append.mp hmsg with hm | hm
    · rcases List.mem_append.mp hm with hm2 | hm2
      · exact Or.inl hm2
      · simp only [List.mem_singleton] at hm2
        right; left
        rw [hm2]
    · right; right
      have hmm := (mem_mk_cc_messages f t m now (nid + 1) _ msg hm).1
      have hmem := List.mem_filter.mp hmm
      simpa using hmem.2
  · rw [hmsgs]
    simp only [List.length_append, List.length_cons, List.length_nil, mk_cc_length]

/-- C6 witness: the amended fan-out theorem applied to a concrete send from
A to B with empty explicit CC, auto-CCing lead L. -/
theorem C6_cc_fanout_witness :
    (["L"] : List String) = cc_fanout (_get_lead c6_db) "A" "B" (explicit_cc "") ∧
    ((send "A" "B" "hi" "" 150 c6_db).1).messages.length =
      c6_db.messages.length + 1 + ((["L"] : List String).filter (fun x => x != "B")).length := by
  have h := C6_cc_fanout "A" "B" "hi" "" 150 c6_db ["L"] [] rfl
  exact ⟨h.1, h.2.2.2⟩

end MinionComms

namespace MinionComms

theorem read_by_insert_mono (br : List (String × Nat)) (n' : String) (i' : Nat)
    (n : String) (i : Nat) (h : read_by br n i = true) :
    read_by (insert_read br n' i') n i = true := by
  unfold insert_read
  split
  · exact h
  · unfold read_by at h ⊢
    rw [List.any_append]
    simp [h]

theorem read_by_insert_self (br : List (String × Nat)) (n : String) (i : Nat) :
    read_by (insert_read br n i) n i = true := by
  unfold insert_read
  split
  · next h => exact h
  · unfold read_by
    rw [List.any_append]
    simp

theorem read_by_foldl_mono (n : String) (i : Nat) (name : String) :
    ∀ (l : List Message) (br : List (String × Nat)), read_by br n i = true →
    read_by (l.foldl (fun b m => insert_read b name m.id) br) n i = true
  | [], _, h => h
  | m :: t, br, h =>
    read_by_foldl_mono n i name t (insert_read br name m.id) (read_by_insert_mono br name m.id n i h)

theorem read_by_foldl_mem (name : String) :
    ∀ (l : List Message) (br : List (String × Nat)) (m : Message), m ∈ l →
    read_by (l.foldl (fun b x => insert_read b name x.id) br) name m.id = true := by
  intro l
  induction l with
  | nil => intro br m h; exact absurd h (List.not_mem_nil _)
  | cons x t ih =>
    intro br m h
    cases h with
    | head => exact read_by_foldl_mono _ _ name t _ (read_by_insert_self br name x.id)
    | tail _ h2 => exact ih _ m h2

theorem mark_to_agent (ids : List Nat) (m : Message) :
    (if ids.contains m.id then { m with read_flag := true } else m).to_agent = m.to_agent := by
  split <;> rfl

theorem mark_id (ids : List Nat) (m : Message) :
    (if ids.contains m.id then { m with read_flag := true } else m).id = m.id := by
  split <;> rfl

/-- A `check_inbox` call on a state with nothing unread for the agent
returns an empty list. -/
theorem check_inbox_empty (name : String) (t : Nat) (s : DB)
    (h1 : ∀ m ∈ s.messages, (m.to_agent == name && m.read_flag == false) = false)
    (h2 : ∀ m ∈ s.messages, m.to_agent = "all" → read_by s.broadcast_reads name m.id = true) :
    (check_inbox name t s).2 = .inbox [] := by
  simp only [check_inbox]
  dsimp only
  have hd : s.messages.filter (fun m => m.to_agent == name && m.read_flag == false) = [] := by
    rw [List.filter_eq_nil_iff]
    intro m hm
    rw [h1 m hm]
    simp
  rw [hd]
  simp only [List.map_nil]
  have hmap : s.messages.map (fun m =>
      if ([] : List Nat).contains m.id then { m with read_flag := true } else m) = s.messages := by
    have : ∀ m : Message,
        (if ([] : List Nat).contains m.id then { m with read_flag := true } else m) = m := by
      intro m
      rfl
    simp only [this, List.map_id']
  rw [hmap]
  have hb : s.messages.filter (fun m =>
      m.to_agent == "all" && !(read_by s.broadcast_reads name m.id)) = [] := by
    rw [List.filter_eq_nil_iff]
    intro m hm
    by_cases hall : m.to_agent = "all"
    · simp [h2 m hm hall]
    · simp [hall]
  rw [hb]
  rfl

/-- C7: `check_inbox` is idempotent — calling it twice in a row with no
intervening message creation yields an empty message list the second time. -/
theorem C7_check_inbox_idempotent (s : DB) (name : String) (t1 t2 : Nat) :
    (check_inbox name t2 ((check_inbox name t1 s).1)).2 = .inbox [] := by
  apply check_inbox_empty
  · intro m hm
    simp only [check_inbox] at hm
    dsimp only at hm
    obtain ⟨x, hx, rfl⟩ := List.mem_map.mp hm
    by_cases hpx : (x.to_agent == name && x.read_flag == false) = true
    · have hxin : x ∈ s.messages.filter (fun m => m.to_agent == name && m.read_flag == false) :=
        List.mem_filter.mpr ⟨hx, hpx⟩
      have hid : x.id ∈ (s.messages.filter
          (fun m => m.to_agent == name && m.read_flag == false)).map (fun m => m.id) :=
        List.mem_map.mpr ⟨x, hxin, rfl⟩
      rw [if_pos (List.elem_eq_true_of_mem hid)]
      simp
    · split
      · simp
      · simpa using hpx
  · intro m hm hall
    simp only [check_inbox] at hm ⊢
    dsimp only at hm ⊢
    obtain ⟨x, hx, rfl⟩ := List.mem_map.mp hm
    rw [mark_id]
    by_cases hrb : read_by s.broadcast_reads name x.id = true
    · exact read_by_foldl_mono name x.id name _ _ hrb
    · set ids := (s.messages.filter
        (fun m => m.to_agent == name && m.read_flag == false)).map (fun m => m.id) with hids
      set mx := if ids.contains x.id then { x with read_flag := true } else x with hmx
      have hmxin : mx ∈ s.messages.map (fun m =>
          if ids.contains m.id then { m with read_flag := true } else m) :=
        List.mem_map.mpr ⟨x, hx, rfl⟩
      have hmxpred : (mx.to_agent == "all" && !(read_by s.broadcast_reads name mx.id)) = true := by
        rw [hmx, mark_to_agent, mark_id]
        have hto : x.to_agent = "all" := by
          rw [hmx, mark_to_agent] at hall
          exact hall
        simp [hto, hrb]
      have hmem : mx ∈ (s.messages.map (fun m =>
          if ids.contains m.id then { m with read_flag := true } else m)).filter
          (fun m => m.to_agent == "all" && !(read_by s.broadcast_reads name m.id)) :=
        List.mem_filter.mpr ⟨hmxin, hmxpred⟩
      have := read_by_foldl_mem name _ s.broadcast_reads mx hmem
      rw [hmx, mark_id] at this
      exact this

end MinionComms

namespace MinionComms

def c8_db : DB := {
  agents := [{ name := "A", agent_class := "coder" }]
  messages := [{ id := 1, from_agent := "A", to_agent := "all", content := "hi", timestamp := 1 }]
  broadcast_reads := [("A", 1)]
  file_claims := [{ file_path := "/x", agent_name := "A", claimed_at := 1 }] }

/-- C8 counterexample: renaming agent A to B succeeds and reports a full
migration, yet A's file claim still records the old name, which no longer
matches any registered agent. -/
theorem C8_rename_migration_counterexample :
    (rename "A" "B" c8_db).2 = .renamed "A" "B" ∧
    find_agent (rename "A" "B" c8_db).1 "A" = none ∧
    (rename "A" "B" c8_db).1.file_claims =
      [{ file_path := "/x", agent_name := "A", claimed_at := 1 }] :=
  ⟨rfl, by decide, by decide⟩

/-- C8 (amended): rename fails without mutation when the new name is taken;
on success it migrates the agent row, message from/to/cc-original fields and
broadcast-read ownership away from the old name, but leaves file claims,
waitlist entries, tasks and raid-log rows untouched, so those tables may
still reference the old name. -/
theorem C8_rename_migration (s : DB) (old_name new_name : String)
    (hold : (find_agent s old_name).isSome = true) :
    ((find_agent s new_name).isSome = true →
      rename old_name new_name s = (s, .nameTaken new_name)) ∧
    (find_agent s new_name = none →
      (rename old_name new_name s).2 = .renamed old_name new_name ∧
      (∀ a ∈ (rename old_name new_name s).1.agents, a.name ≠ old_name) ∧
      (∀ m ∈ (rename old_name new_name s).1.messages,
        m.from_agent ≠ old_name ∧ m.to_agent ≠ old_name ∧
        m.cc_original_to ≠ some old_name) ∧
      (∀ p ∈ (rename old_name new_name s).1.broadcast_reads, p.1 ≠ old_name) ∧
      (rename old_name new_name s).1.file_claims = s.file_claims ∧
      (rename old_name new_name s).1.file_waitlist = s.file_waitlist ∧
      (rename old_name new_name s).1.tasks = s.tasks ∧
      (rename old_name new_name s).1.raid_log = s.raid_log) := by
  obtain ⟨a0, ha0⟩ := Option.isSome_iff_exists.mp hold
  constructor
  · intro hns
    simp [rename, ha0, hns]
  · intro hnew
    have hne : old_name ≠ new_name := by
      intro h
      rw [h, hnew] at ha0
      exact Option.noConfusion ha0
    have hne2 : new_name ≠ old_name := Ne.symm hne
    simp only [rename, ha0, hnew, Option.isNone_some, Option.isSome_none,
      Bool.false_eq_true, if_false]
    refine ⟨trivial, ?_, ?_, ?_, trivial, trivial, trivial, trivial⟩
    · intro a ha
      obtain ⟨x, hx, rfl⟩ := List.mem_map.mp ha
      split
      · exact fun hc => hne hc.symm
      · next h => simpa using h
    · intro m hm
      obtain ⟨x, hx, rfl⟩ := List.mem_map.mp hm
      (repeat' split) <;> refine ⟨?_, ?_, ?_⟩ <;> simp_all
    · intro p hp
      obtain ⟨x, hx, rfl⟩ := List.mem_map.mp hp
      split
      · exact hne2
      · next h => simpa using h

theorem C8_rename_migration_witness :
    (rename "A" "B" c8_db).1.tasks = c8_db.tasks := by
  have h := C8_rename_migration c8_db "A" "B" (by decide)
  exact (h.2 (by decide)).2.2.2.2.2.2.1

end MinionComms

namespace MinionComms

theorem agents_map_one (n : String) (g : Agent → Agent) :
    ∀ (l : List Agent), (∀ a ∈ l, (a.name == n) = false) →
    l.map (fun a => if a.name == n then g a else a) = l
  | [], _ => rfl
  | x :: t, h => by
    have hx : (x.name == n) = false := h x (List.mem_cons_self x t)
    simp only [List.map_cons]
    rw [if_neg (by simp [hx]),
      agents_map_one n g t (fun a ha => h a (List.mem_cons_of_mem x ha))]

theorem agents_map_id (s : DB) (n : String) (g : Agent → Agent)
    (h : find_agent s n = none) :
    s.agents.map (fun a => if a.name == n then g a else a) = s.agents := by
  have hall : ∀ a ∈ s.agents, (a.name == n) = false := by
    intro a ha
    have h2 := List.find?_eq_none.mp h a ha
    simpa using h2
  exact agents_map_one n g s.agents hall

def c9_lead : Agent := { name := "L", agent_class := "lead" }

def c9_db : DB := { agents := [c9_lead] }

/-- C9 counterexample: `set_status` and `set_context` on an unregistered
agent name report success, not a not-found rejection. -/
theorem C9_not_found_counterexample :
    find_agent c9_db "ghost" = none ∧
    (set_status "ghost" "busy" 0 c9_db).2 = .statusSet "ghost" "busy" ∧
    (set_context "ghost" "ctx" 0 0 0 c9_db).2 = .contextUpdated "ghost" :=
  ⟨by decide, rfl, rfl⟩

/-- C9 (amended): every kernel operation that looks up its agent or task
rejects an unknown agent name or task id with a descriptive not-found
outcome and leaves the store unchanged — except `set_status` and
`set_context`, whose unconditional UPDATE leaves the store unchanged for an
unknown name but still reports success. -/
theorem C9_not_found (s : DB) (name : String) (hag : find_agent s name = none) :
    (deregister name s = (s, .agentNotFound name)) ∧
    (∀ nn, rename name nn s = (s, .agentNotFound name)) ∧
    (∀ st now, set_status name st now s = (s, .statusSet name st)) ∧
    (∀ c tu tl now, set_context name c tu tl now s = (s, .contextUpdated name)) ∧
    (∀ p now, set_battle_plan name p now s = (s, .blockedNotRegistered name)) ∧
    (∀ pid st now, BATTLE_PLAN_STATUSES.contains st = true →
      update_battle_plan_status name pid st now s = (s, .blockedNotRegistered name)) ∧
    (∀ e pr now, RAID_LOG_PRIORITIES.contains pr = true →
      log_raid name e pr now s = (s, .blockedNotRegistered name)) ∧
    (∀ fs t tf pj z b now,
      create_task fs name t tf pj z b now s = (s, .blockedNotRegistered name)) ∧
    (∀ tid a2 now, moon_crash_active s = false →
      assign_task name tid a2 now s = (s, .blockedNotRegistered name)) ∧
    (∀ tid pg fl now, update_task name tid "" pg fl now s = (s, .blockedNotRegistered name)) ∧
    (∀ fs tid rf now, submit_result fs name tid rf now s = (s, .blockedNotRegistered name)) ∧
    (∀ tid now, close_task name tid now s = (s, .blockedNotRegistered name)) ∧
    (∀ nm fp now, claim_file nm name fp now s = (s, .blockedNotRegistered name)) ∧
    (∀ nm fp fo now, release_file nm name fp fo now s = (s, .blockedNotRegistered name)) ∧
    (∀ now, cold_start name now s = (s, .blockedNotRegistered name)) ∧
    (∀ f m now, fenix_down name f m now s = (s, .blockedNotRegistered name)) ∧
    (∀ fs df now, debrief fs name df now s = (s, .blockedNotRegistered name)) ∧
    (∀ now, end_session name now s = (s, .blockedNotRegistered name)) ∧
    (∀ now, clear_moon_crash name now s = (s, .blockedNotRegistered name)) ∧
    (∀ caller assignee a tid pg fl rf fs now,
      find_agent s caller = some a → a.agent_class = "lead" →
      (find_agent s assignee).isSome = true →
      moon_crash_active s = false →
      s.tasks.find? (fun t => t.id == tid) = none →
      assign_task caller tid assignee now s = (s, .taskNotFound tid) ∧
      update_task caller tid "" pg fl now s = (s, .taskNotFound tid) ∧
      submit_result fs caller tid rf now s = (s, .taskNotFound tid) ∧
      close_task caller tid now s = (s, .taskNotFound tid)) := by
  refine ⟨?_, ?_, ?_, ?_, ?_, ?_, ?_, ?_, ?_, ?_, ?_, ?_, ?_, ?_, ?_, ?_, ?_, ?_, ?_, ?_⟩
  · simp [deregister, hag]
  · intro nn
    simp [rename, hag]
  · intro st now
    simp only [set_status]
    rw [agents_map_id s name _ hag]
  · intro c tu tl now
    simp only [set_context]
    rw [agents_map_id s name _ hag]
  · intro p now
    simp [set_battle_plan, hag]
  · intro pid st now hst
    have hst2 : st ∈ BATTLE_PLAN_STATUSES := by simpa using hst
    simp [update_battle_plan_status, hst2, hag]
  · intro e pr now hpr
    have hpr2 : pr ∈ RAID_LOG_PRIORITIES := by simpa using hpr
    simp [log_raid, hpr2, hag]
  · intro fs t tf pj z b now
    simp [create_task, hag]
  · intro tid a2 now hmoon
    simp [assign_task, hmoon, hag]
  · intro tid pg fl now
    simp [update_task, hag]
  · intro fs tid rf now
    simp [submit_result, hag]
  · intro tid now
    simp [close_task, hag]
  · intro nm fp now
    simp [claim_file, hag]
  · intro nm fp fo now
    simp [release_file, hag]
  · intro now
    simp [cold_start, hag]
  · intro f m now
    simp [fenix_down, hag]
  · intro fs df now
    simp [debrief, hag]
  · intro now
    simp [end_session, hag]
  · intro now
    simp [clear_moon_crash, hag]
  · intro caller assignee a tid pg fl rf fs now hfa hlead hassn hmoon htid
    obtain ⟨b, hb⟩ := Option.isSome_iff_exists.mp hassn
    refine ⟨?_, ?_, ?_, ?_⟩
    · simp [assign_task, hmoon, hfa, hlead, hb, htid]
    · simp [update_task, hfa, htid]
    · simp [submit_result, hfa, htid]
    · simp [close_task, hfa, hlead, htid]

theorem C9_not_found_witness :
    deregister "ghost" c9_db = (c9_db, .agentNotFound "ghost") ∧
    set_status "ghost" "busy" 5 c9_db = (c9_db, .statusSet "ghost" "busy") ∧
    update_battle_plan_status "ghost" 7 "active" 5 c9_db =
      (c9_db, .blockedNotRegistered "ghost") ∧
    close_task "L" 7 5 c9_db = (c9_db, .taskNotFound 7) := by
  have h := C9_not_found c9_db "ghost" (by decide)
  obtain ⟨h1, h2, h3, h4, h5, h6, h7, h8, h9, h10, h11, h12, h13, h14, h15,
    h16, h17, h18, h19, hB⟩ := h
  refine ⟨h1, h3 "busy" 5, h6 7 "active" 5 (by decide), ?_⟩
  exact (hB "L" "L" c9_lead 7 "" "" "r" (fun _ => true) 5 (by decide) (by decide)
    (by decide) (by decide) (by decide)).2.2.2

end MinionComms

namespace MinionComms

theorem set_flag_agents (k v st : String) (now : Nat) (s : DB) :
    (set_flag k v st now s).agents = s.agents := by
  simp only [set_flag]; split <;> rfl

theorem find_skip {α : Type} (p : α → Bool) :
    ∀ (l : List α), l.find? p = none → ∀ l2, (l ++ l2).find? p = l2.find? p
  | [], _, _ => rfl
  | x :: t, h, l2 => by
    rw [List.cons_append]
    cases hx : p x with
    | true => simp [List.find?_cons, hx] at h
    | false =>
      simp only [List.find?_cons, hx] at h ⊢
      exact find_skip p t h l2

def c10_db : DB := {
  agents := [{ name := "L", agent_class := "lead", context_updated_at := some 4 }]
  battle_plans := [{ id := 1, set_by := "L", plan := "p", status := "active", created_at := 0, updated_at := 0 }] }

/-- C10: the staleness check treats an unknown sender as fresh, so with the
unread and plan gates passing, the first send from an unregistered name
succeeds and auto-registers it as a coder with no context timestamp; any
coder with no context timestamp is stale, so that sender's next send is
blocked with the staleness block and no mutation, until set_context stamps
the context clock, after which the check passes within the coder threshold. -/
theorem C10_staleness_autoregister (s : DB) (name : String) (hag : find_agent s name = none) :
    (∀ now, _staleness_check now s name = false) ∧
    (∀ to2 msg cc now, unread_count s name = 0 → (active_plan_count s == 0) = false →
      (∃ ccl trg, (send name to2 msg cc now s).2 = .sent ccl trg) ∧
      find_agent (send name to2 msg cc now s).1 name = some (auto_agent name now) ∧
      (auto_agent name now).agent_class = "coder" ∧
      (auto_agent name now).context_updated_at = none) ∧
    (∀ (s2 : DB) (a : Agent) (to2 msg cc : String) (now : Nat),
      find_agent s2 name = some a → a.agent_class = "coder" → a.context_updated_at = none →
      _staleness_check now s2 name = true ∧
      (unread_count s2 name = 0 → (active_plan_count s2 == 0) = false →
        send name to2 msg cc now s2 = (s2, .blockedStale))) ∧
    (∀ (s2 : DB) (a : Agent) (c : String) (tu tl now now2 : Nat),
      find_agent s2 name = some a → a.agent_class = "coder" → now2 - now ≤ 300 →
      _staleness_check now2 (set_context name c tu tl now s2).1 name = false) := by
  have hall : ∀ a ∈ s.agents, (a.name == name) = false := by
    intro a ha
    have h2 := List.find?_eq_none.mp hag a ha
    simpa using h2
  refine ⟨?_, ?_, ?_, ?_⟩
  · intro now
    simp [_staleness_check, hag]
  · intro to2 msg cc now hunread hplan
    have hstale : _staleness_check now s name = false := by simp [_staleness_check, hag]
    simp only [send, hunread, hplan, hstale, hag]
    simp only [Nat.lt_irrefl, if_false, Bool.false_eq_true, Option.isNone_none, if_true]
    refine ⟨⟨_, _, rfl⟩, ?_, rfl, rfl⟩
    split
    · rw [find_agent, set_flag_agents]
      dsimp only
      rw [List.map_append, agents_map_one name _ s.agents hall]
      rw [find_skip _ s.agents hag]
      simp [auto_agent]
    · rw [find_agent]
      dsimp only
      rw [List.map_append, agents_map_one name _ s.agents hall]
      rw [find_skip _ s.agents hag]
      simp [auto_agent]
  · intro s2 a to2 msg cc now hfa hcl hctx
    have hst : _staleness_check now s2 name = true := by
      simp [_staleness_check, hfa, hcl, hctx, CLASS_STALENESS_SECONDS]
    refine ⟨hst, ?_⟩
    intro hunread hplan
    simp [send, hunread, hplan, hst]
  · intro s2 a c tu tl now now2 hfa hcl hle
    have hpa : (a.name == name) = true := by
      have h2 := List.find?_some hfa
      simpa using h2
    have hupd : find_agent (set_context name c tu tl now s2).1 name =
        some { a with
          context := some c
          context_tokens_used := if tu == 0 then none else some tu
          context_tokens_limit := if tl == 0 then none else some tl
          context_updated_at := some now
          last_seen := some now } := by
      simp only [set_context, find_agent]
      rw [List.find?_map]
      have hcomp : ((fun (x : Agent) => x.name == name) ∘ (fun (x : Agent) =>
          if x.name == name then
            { x with
              context := some c
              context_tokens_used := if tu == 0 then none else some tu
              context_tokens_limit := if tl == 0 then none else some tl
              context_updated_at := some now
              last_seen := some now } else x)) = (fun (x : Agent) => x.name == name) := by
        funext x
        simp only [Function.comp]
        split <;> rfl
      rw [hcomp]
      have hfa2 : s2.agents.find? (fun x => x.name == name) = some a := hfa
      rw [hfa2]
      dsimp only [Option.map]
      rw [if_pos hpa]
    simp only [_staleness_check, hupd, hcl, CLASS_STALENESS_SECONDS]
    simp only [beq_self_eq_true, if_true, decide_eq_false_iff_not]
    omega


theorem C10_staleness_autoregister_witness :
    _staleness_check 5 c10_db "N" = false ∧
    (∃ ccl trg, (send "N" "L" "hi" "" 5 c10_db).2 = .sent ccl trg) ∧
    find_agent (send "N" "L" "hi" "" 5 c10_db).1 "N" = some (auto_agent "N" 5) ∧
    _staleness_check 6 (send "N" "L" "hi" "" 5 c10_db).1 "N" = true ∧
    _staleness_check 10
      (set_context "N" "ctx" 0 0 6 (send "N" "L" "hi" "" 5 c10_db).1).1 "N" = false := by
  have h := C10_staleness_autoregister c10_db "N" (by decide)
  obtain ⟨h1, h2, h3, h4⟩ := h
  have h2a := h2 "L" "hi" "" 5 (by decide) (by decide)
  refine ⟨h1 5, h2a.1, h2a.2.1, ?_, ?_⟩
  · exact (h3 (send "N" "L" "hi" "" 5 c10_db).1 (auto_agent "N" 5) "L" "x" "" 6
      h2a.2.1 rfl rfl).1
  · exact h4 (send "N" "L" "hi" "" 5 c10_db).1 (auto_agent "N" 5) "ctx" 0 0 6 10
      h2a.2.1 rfl (by decide)

end MinionComms
